import Mathlib

/-!
The agent delegation tool of `internal/agent/agent_tool.go`.

A shallow embedding of the handler closure that `coordinator.agentTool` returns,
and of the declarations it uses.  The handler is sequential code over external
collaborators (session registry, model resolver, prompt builder, tool builder,
sub-agent runtime).  The collaborators are not part of these sources, so they are
parameters: a record of functions over an abstract world state `W`.  Every call
the handler makes on a collaborator is also written, in program order, to a
trace, so that "is called", "is never called" and "is called exactly once" are
statements about that trace.

Conventions.
* `float64` is a carrier `F` with an addition; the only arithmetic the handler
  does is `parentSession.Cost += updatedSession.Cost`.
* `int64` values are `Int`: they are only compared with `0` and copied.
* A Go `error` is its message, a `String`; the returned `error` is `Option String`
  (`none` is `nil`).
* A Go call `f(ctx, args) (T, error)` on a collaborator is a function
  `W → Except String T × W`: it may change the world also when it fails.
-/

set_option linter.dupNamespace false

namespace Crush

/-! Data model -/

/-- AgentParams, agent_tool.go lines 19-22. -/
structure AgentParams where
  Prompt : String
  UseSmallModel : Bool
deriving DecidableEq

/-- AgentToolName, agent_tool.go line 25. -/
def AgentToolName : String := "agent"

/-- The part of `fantasy.ToolCall` the handler reads (`call.ID`), with the other
two fields of the library type. -/
structure ToolCall where
  ID : String
  Name : String
  Input : String
deriving DecidableEq

/-- The library type `fantasy.ToolResponse`; every field defaults to its Go zero
value, so `{}` is `fantasy.ToolResponse{}`.  The Go field `Type` is `Type_` here. -/
structure ToolResponse where
  Type_ : String := ""
  Content : String := ""
  Data : List Nat := []
  MediaType : String := ""
  Metadata : String := ""
  IsError : Bool := false
deriving DecidableEq

/-- The library constructor `fantasy.NewTextErrorResponse`: a text response flagged
as an error (the soft, tool-level error). -/
def NewTextErrorResponse (content : String) : ToolResponse :=
  { Type_ := "text", Content := content, IsError := true }

/-- The library constructor `fantasy.NewTextResponse`. -/
def NewTextResponse (content : String) : ToolResponse :=
  { Type_ := "text", Content := content }

/-- A session of the registry.  The handler reads `ID` and `Cost` and writes `Cost`;
`rest` stands for all other fields of `session.Session`, whose declaration is
outside these sources. -/
structure Session (F R : Type) where
  ID : String
  Cost : F
  rest : R
deriving DecidableEq

/-- What the handler reads of `fantasy.LanguageModel`: `Provider()` and `Model()`. -/
structure LanguageModel where
  Provider : String
  Model : String
deriving DecidableEq

/-- What the handler reads of `catwalk.Model`. -/
structure CatwalkModel where
  DefaultMaxTokens : Int
deriving DecidableEq

/-- What the handler reads of `config.SelectedModel`; the pointer-typed sampling
parameters are options. -/
structure SelectedModel (F : Type) where
  Provider : String
  MaxTokens : Int
  Temperature : Option F
  TopP : Option F
  TopK : Option Int
  FrequencyPenalty : Option F
  PresencePenalty : Option F
deriving DecidableEq

/-- The `Model` of the agent package: language model, catalog entry, configuration. -/
structure Model (F : Type) where
  Model : LanguageModel
  CatwalkCfg : CatwalkModel
  ModelCfg : SelectedModel F
deriving DecidableEq

/-- What the handler reads of `config.ProviderConfig`. -/
structure ProviderConfig where
  ID : String
  SystemPromptPrefix : String
deriving DecidableEq

/-- SessionAgentOptions as filled in at agent_tool.go lines 95-105.  The fields
`Sessions` and `Messages` are the coordinator's own services, which this
embedding carries in the collaborator record and not in the options. -/
structure SessionAgentOptions (F T : Type) where
  LargeModel : Model F
  SmallModel : Model F
  SystemPromptPrefix : String
  SystemPrompt : String
  DisableAutoSummarize : Bool
  IsYolo : Bool
  Tools : T
deriving DecidableEq

/-- SessionAgentCall as filled in at agent_tool.go lines 124-134. -/
structure SessionAgentCall (F O : Type) where
  SessionID : String
  Prompt : String
  MaxOutputTokens : Int
  ProviderOptions : O
  Temperature : Option F
  TopP : Option F
  TopK : Option Int
  FrequencyPenalty : Option F
  PresencePenalty : Option F
deriving DecidableEq

/-- The two agent values `selectedAgent` can hold: the agent `c.buildAgent` returned
when the tool was constructed (line 39, captured by the closure), or an agent
that `NewSessionAgent` constructs during the invocation (line 95). -/
inductive SessionAgent (F T : Type) where
  | largeAgent : SessionAgent F T
  | NewSessionAgent (opts : SessionAgentOptions F T) : SessionAgent F T
deriving DecidableEq

/-- What the handler reads of the run result: `result.Response.Content.Text()`. -/
structure AgentResult where
  Text : String
deriving DecidableEq

/-- One collaborator call made by the handler (the `ctx` argument is always the
handler's own and is left out). -/
inductive Call (F R O T : Type) where
  | CreateAgentToolSessionID (messageID toolCallID : String)
  | CreateTaskSession (id parentSessionID title : String)
  | buildAgentModels (isSubAgent : Bool)
  | promptTemplateBuild (provider model : String)
  | ProvidersGet (id : String)
  | buildTools
  | SkipRequests
  | Model
  | Run (agent : SessionAgent F T) (call : SessionAgentCall F O)
  | Get (id : String)
  | Save (s : Session F R)
deriving DecidableEq

/-- The coordinator as the handler sees it: the collaborators, and the variables the
closure captured (`agentCfg` and `promptTemplate` are inside `buildTools` and
`promptTemplateBuild`; `largeAgent` is `SessionAgent.largeAgent`). -/
structure Coordinator (F Ctx W R O T : Type) where
  /-- The accessor `tools.GetSessionFromContext`. -/
  GetSessionFromContext : Ctx → String
  /-- The accessor `tools.GetMessageFromContext`. -/
  GetMessageFromContext : Ctx → String
  /-- The registry method `c.sessions.CreateAgentToolSessionID(messageID, toolCallID)`.
  It takes no context and returns no error: a function of its two arguments
  (section 6 of the spec lists it as pure and deterministic). -/
  CreateAgentToolSessionID : String → String → String
  /-- The registry call `c.sessions.CreateTaskSession(ctx, id, parentID, title)`. -/
  CreateTaskSession : Ctx → String → String → String → W → Except String (Session F R) × W
  /-- The registry call `c.sessions.Get(ctx, id)`. -/
  Get : Ctx → String → W → Except String (Session F R) × W
  /-- The registry call `c.sessions.Save(ctx, session)`. -/
  Save : Ctx → Session F R → W → Except String (Session F R) × W
  /-- The resolver `c.buildAgentModels(ctx, isSubAgent)`, returning (large, small). -/
  buildAgentModels : Ctx → Bool → W → Except String (Model F × Model F) × W
  /-- The call `promptTemplate.Build(ctx, provider, model, *c.cfg)`; the configuration
  value is read from the world. -/
  promptTemplateBuild : Ctx → String → String → W → Except String String × W
  /-- The lookup `c.cfg.Providers.Get(id)`; `none` is `ok = false`. -/
  ProvidersGet : String → W → Option ProviderConfig
  /-- The call `c.buildTools(ctx, agentCfg)`. -/
  buildTools : Ctx → W → Except String T × W
  /-- The field read `c.cfg.Options.DisableAutoSummarize`. -/
  DisableAutoSummarize : W → Bool
  /-- The call `c.permissions.SkipRequests()`. -/
  SkipRequests : W → Bool
  /-- The call `largeAgent.Model()`. -/
  largeAgentModel : W → Model F
  /-- The call `selectedAgent.Run(ctx, call)`. -/
  Run : SessionAgent F T → Ctx → SessionAgentCall F O → W → Except String AgentResult × W
  /-- The package function `getProviderOptions(model, providerCfg)`. -/
  getProviderOptions : Model F → ProviderConfig → O

/-- What one invocation of the handler leaves behind: the two Go return values, the
world after the last collaborator call, and the calls made, oldest first. -/
structure Outcome (F W R O T : Type) where
  resp : ToolResponse
  err : Option String
  world : W
  trace : List (Call F R O T)

section Handler

variable {F Ctx W R O T : Type} [Add F]

/-- Lines 119-122: the catalog default, overridden by a non-zero configured value. -/
def maxTokens (model : Model F) : Int :=
  if model.ModelCfg.MaxTokens ≠ 0 then model.ModelCfg.MaxTokens
  else model.CatwalkCfg.DefaultMaxTokens

/-- Lines 124-134: the argument of `selectedAgent.Run`. -/
def runCall (c : Coordinator F Ctx W R O T) (params : AgentParams) (session : Session F R)
    (model : Model F) (providerCfg : ProviderConfig) : SessionAgentCall F O :=
  { SessionID := session.ID
    Prompt := params.Prompt
    MaxOutputTokens := maxTokens model
    ProviderOptions := c.getProviderOptions model providerCfg
    Temperature := model.ModelCfg.Temperature
    TopP := model.ModelCfg.TopP
    TopK := model.ModelCfg.TopK
    FrequencyPenalty := model.ModelCfg.FrequencyPenalty
    PresencePenalty := model.ModelCfg.PresencePenalty }

/-- Lines 119-153: the part of the handler after the tier branch, shared by both
tiers.  `w` and `tr` are the world and the trace at line 119. -/
def agentToolRun (c : Coordinator F Ctx W R O T) (ctx : Ctx) (params : AgentParams)
    (sessionID : String) (session : Session F R) (selectedAgent : SessionAgent F T)
    (model : Model F) (providerCfg : ProviderConfig) (w : W) (tr : List (Call F R O T)) :
    Outcome F W R O T :=
  let rc := runCall c params session model providerCfg
  let tr1 := tr ++ [Call.Run selectedAgent rc]
  match c.Run selectedAgent ctx rc w with
  | (.error _, w1) => ⟨NewTextErrorResponse "error generating response", none, w1, tr1⟩
  | (.ok result, w1) =>
    let tr2 := tr1 ++ [Call.Get session.ID]
    match c.Get ctx session.ID w1 with
    | (.error e, w2) => ⟨{}, some ("error getting session: " ++ e), w2, tr2⟩
    | (.ok updatedSession, w2) =>
      let tr3 := tr2 ++ [Call.Get sessionID]
      match c.Get ctx sessionID w2 with
      | (.error e, w3) => ⟨{}, some ("error getting parent session: " ++ e), w3, tr3⟩
      | (.ok parentSession, w3) =>
        let parentSession1 : Session F R :=
          { parentSession with Cost := parentSession.Cost + updatedSession.Cost }
        let tr4 := tr3 ++ [Call.Save parentSession1]
        match c.Save ctx parentSession1 w3 with
        | (.error e, w4) => ⟨{}, some ("error saving parent session: " ++ e), w4, tr4⟩
        | (.ok _, w4) => ⟨NewTextResponse result.Text, none, w4, tr4⟩

/-- What the tier branch (lines 68-117) leaves in `selectedAgent`, `model` and
`providerCfg` when it falls through to line 119, with the world and the trace at
that point. -/
structure Selected (F W R O T : Type) where
  selectedAgent : SessionAgent F T
  model : Model F
  providerCfg : ProviderConfig
  world : W
  trace : List (Call F R O T)

/-- Lines 68-117: the tier branch.  `Sum.inl out` is a `return` inside the branch
(the handler ends with `out`); `Sum.inr sel` falls through to line 119.  `w1` and
`tr1` are the world and the trace at line 68. -/
def agentToolSelect (c : Coordinator F Ctx W R O T) (ctx : Ctx) (params : AgentParams)
    (w1 : W) (tr1 : List (Call F R O T)) : Outcome F W R O T ⊕ Selected F W R O T :=
  if params.UseSmallModel then
    let tr2 := tr1 ++ [Call.buildAgentModels true]
    match c.buildAgentModels ctx true w1 with
    | (.error e, w2) => .inl ⟨{}, some ("error building models: " ++ e), w2, tr2⟩
    | (.ok (_, small), w2) =>
      let tr3 := tr2 ++ [Call.promptTemplateBuild small.Model.Provider small.Model.Model]
      match c.promptTemplateBuild ctx small.Model.Provider small.Model.Model w2 with
      | (.error e, w3) => .inl ⟨{}, some ("error building system prompt: " ++ e), w3, tr3⟩
      | (.ok systemPrompt, w3) =>
        let tr4 := tr3 ++ [Call.ProvidersGet small.ModelCfg.Provider]
        match c.ProvidersGet small.ModelCfg.Provider w3 with
        | none => .inl ⟨{}, some "small model provider not configured", w3, tr4⟩
        | some smallProviderCfg =>
          let tr5 := tr4 ++ [Call.buildTools]
          match c.buildTools ctx w3 with
          | (.error e, w4) => .inl ⟨{}, some ("error building tools: " ++ e), w4, tr5⟩
          | (.ok agentTools, w4) =>
            let selectedAgent : SessionAgent F T := SessionAgent.NewSessionAgent
              { LargeModel := small
                SmallModel := small
                SystemPromptPrefix := smallProviderCfg.SystemPromptPrefix
                SystemPrompt := systemPrompt
                DisableAutoSummarize := c.DisableAutoSummarize w4
                IsYolo := c.SkipRequests w4
                Tools := agentTools }
            .inr ⟨selectedAgent, small, smallProviderCfg, w4, tr5 ++ [Call.SkipRequests]⟩
  else
    let model := c.largeAgentModel w1
    let tr2 := tr1 ++ [Call.Model, Call.ProvidersGet model.ModelCfg.Provider]
    match c.ProvidersGet model.ModelCfg.Provider w1 with
    | none => .inl ⟨{}, some "model provider not configured", w1, tr2⟩
    | some providerCfg => .inr ⟨SessionAgent.largeAgent, model, providerCfg, w1, tr2⟩

/-- Lines 47-154: the handler closure returned by `coordinator.agentTool`. -/
def agentTool (c : Coordinator F Ctx W R O T) (ctx : Ctx) (params : AgentParams)
    (call : ToolCall) (w0 : W) : Outcome F W R O T :=
  if params.Prompt = "" then
    ⟨NewTextErrorResponse "prompt is required", none, w0, []⟩
  else
  let sessionID := c.GetSessionFromContext ctx
  if sessionID = "" then
    ⟨{}, some "session id missing from context", w0, []⟩
  else
  let agentMessageID := c.GetMessageFromContext ctx
  if agentMessageID = "" then
    ⟨{}, some "agent message id missing from context", w0, []⟩
  else
  let agentToolSessionID := c.CreateAgentToolSessionID agentMessageID call.ID
  let tr1 : List (Call F R O T) :=
    [Call.CreateAgentToolSessionID agentMessageID call.ID,
     Call.CreateTaskSession agentToolSessionID sessionID "New Agent Session"]
  match c.CreateTaskSession ctx agentToolSessionID sessionID "New Agent Session" w0 with
  | (.error e, w1) => ⟨{}, some ("error creating session: " ++ e), w1, tr1⟩
  | (.ok session, w1) =>
    match agentToolSelect c ctx params w1 tr1 with
    | .inl out => out
    | .inr sel =>
      agentToolRun c ctx params sessionID session sel.selectedAgent sel.model
        sel.providerCfg sel.world sel.trace

end Handler

/-! Reading a trace -/

section Trace

variable {F R O T : Type}

/-- The arguments of the `CreateTaskSession` calls of a trace, in order. -/
def createTaskSessionCalls (tr : List (Call F R O T)) : List (String × String × String) :=
  tr.filterMap fun e =>
    match e with
    | Call.CreateTaskSession id parent title => some (id, parent, title)
    | _ => none

/-- The ids asked of `Get` in a trace, in order. -/
def getCalls (tr : List (Call F R O T)) : List String :=
  tr.filterMap fun e =>
    match e with
    | Call.Get id => some id
    | _ => none

/-- The sessions passed to `Save` in a trace, in order. -/
def saveCalls (tr : List (Call F R O T)) : List (Session F R) :=
  tr.filterMap fun e =>
    match e with
    | Call.Save s => some s
    | _ => none

/-- The receivers and arguments of the `Run` calls of a trace, in order. -/
def runCalls (tr : List (Call F R O T)) : List (SessionAgent F T × SessionAgentCall F O) :=
  tr.filterMap fun e =>
    match e with
    | Call.Run a rc => some (a, rc)
    | _ => none

/-- The arguments of the `buildAgentModels` calls of a trace. -/
def buildAgentModelsCalls (tr : List (Call F R O T)) : List Bool :=
  tr.filterMap fun e =>
    match e with
    | Call.buildAgentModels b => some b
    | _ => none

/-- The arguments of the `promptTemplate.Build` calls of a trace. -/
def promptTemplateBuildCalls (tr : List (Call F R O T)) : List (String × String) :=
  tr.filterMap fun e =>
    match e with
    | Call.promptTemplateBuild p m => some (p, m)
    | _ => none

/-- The ids asked of `Providers.Get` in a trace. -/
def providersGetCalls (tr : List (Call F R O T)) : List String :=
  tr.filterMap fun e =>
    match e with
    | Call.ProvidersGet id => some id
    | _ => none

/-- The `buildTools` calls of a trace. -/
def buildToolsCalls (tr : List (Call F R O T)) : List Unit :=
  tr.filterMap fun e =>
    match e with
    | Call.buildTools => some ()
    | _ => none

end Trace

/-! An in-memory coordinator

A small concrete coordinator: the world is the list of stored sessions, the
context is the pair (session id, message id), costs are integers.  It is used to
evaluate the handler on concrete invocations. -/

section InMemory

/-- The world of the in-memory coordinator: the stored sessions. -/
abbrev MemWorld : Type := List (Session Int Unit)

/-- The large model of the in-memory coordinator: no configured token limit. -/
def memLargeModel : Model Int :=
  { Model := ⟨"anthropic", "large-1"⟩
    CatwalkCfg := ⟨4096⟩
    ModelCfg := ⟨"anthropic", 0, none, none, none, none, none⟩ }

/-- The small model of the in-memory coordinator: a configured token limit. -/
def memSmallModel : Model Int :=
  { Model := ⟨"openai", "small-1"⟩
    CatwalkCfg := ⟨2048⟩
    ModelCfg := ⟨"openai", 512, none, none, none, none, none⟩ }

/-- An in-memory coordinator.  `providers` is the configured provider list and
`runOk` says whether the sub-agent run succeeds; a successful run adds 7 to the
cost of the session it ran in. -/
def memCoordinator (providers : List ProviderConfig) (runOk : Bool) :
    Coordinator Int (String × String) MemWorld Unit Unit Unit :=
  { GetSessionFromContext := fun ctx => ctx.1
    GetMessageFromContext := fun ctx => ctx.2
    CreateAgentToolSessionID := fun m t => m ++ "$$" ++ t
    CreateTaskSession := fun _ id _ _ w => (.ok ⟨id, 0, ()⟩, w ++ [⟨id, 0, ()⟩])
    Get := fun _ id w =>
      match w.find? (fun s => s.ID == id) with
      | some s => (.ok s, w)
      | none => (.error "session not found", w)
    Save := fun _ s w => (.ok s, w.map (fun x => if x.ID == s.ID then s else x))
    buildAgentModels := fun _ _ w => (.ok (memLargeModel, memSmallModel), w)
    promptTemplateBuild := fun _ _ m w => (.ok ("task prompt for " ++ m), w)
    ProvidersGet := fun id _ => providers.find? (fun p => p.ID == id)
    buildTools := fun _ w => (.ok (), w)
    DisableAutoSummarize := fun _ => false
    SkipRequests := fun _ => false
    largeAgentModel := fun _ => memLargeModel
    Run := fun _ _ rc w =>
      if runOk then
        (.ok ⟨"done"⟩, w.map (fun s => if s.ID == rc.SessionID then { s with Cost := s.Cost + 7 } else s))
      else (.error "run failed", w)
    getProviderOptions := fun _ _ => () }

/-- Both providers configured. -/
def memProviders : List ProviderConfig :=
  [⟨"anthropic", "You are large."⟩, ⟨"openai", "You are small."⟩]

/-- A world with one parent session of cost 5. -/
def memWorld : MemWorld := [⟨"parent", 5, ()⟩]

/-- A context carrying session id `parent` and message id `msg1`. -/
def memCtx : String × String := ("parent", "msg1")

/-- A tool call with id `call1`. -/
def memCall : ToolCall := ⟨"call1", "agent", ""⟩

/-- The child session the in-memory registry creates for `memCtx` and `memCall`. -/
def memChild : Session Int Unit := ⟨"msg1$$call1", 0, ()⟩

/-- What the large tier selects on the in-memory coordinator after the child session
was created. -/
def memLargeSelected : Selected Int MemWorld Unit Unit Unit :=
  { selectedAgent := SessionAgent.largeAgent
    model := memLargeModel
    providerCfg := ⟨"anthropic", "You are large."⟩
    world := memWorld ++ [memChild]
    trace :=
      [Call.CreateAgentToolSessionID "msg1" "call1",
       Call.CreateTaskSession "msg1$$call1" "parent" "New Agent Session",
       Call.Model, Call.ProvidersGet "anthropic"] }

/-- The call the large tier passes to `Run` for the prompt `do it`: the large model
has no configured limit, so the catalog default 4096 is used. -/
def memLargeRunCall : SessionAgentCall Int Unit :=
  { SessionID := "msg1$$call1"
    Prompt := "do it"
    MaxOutputTokens := 4096
    ProviderOptions := ()
    Temperature := none
    TopP := none
    TopK := none
    FrequencyPenalty := none
    PresencePenalty := none }

/-- The agent the small tier constructs on the in-memory coordinator. -/
def memSmallAgent : SessionAgent Int Unit :=
  SessionAgent.NewSessionAgent
    { LargeModel := memSmallModel
      SmallModel := memSmallModel
      SystemPromptPrefix := "You are small."
      SystemPrompt := "task prompt for small-1"
      DisableAutoSummarize := false
      IsYolo := false
      Tools := () }

/-- The call the small tier passes to `Run` for the prompt `do it`: the small model
has the configured limit 512, which overrides the catalog default 2048. -/
def memSmallRunCall : SessionAgentCall Int Unit :=
  { SessionID := "msg1$$call1"
    Prompt := "do it"
    MaxOutputTokens := 512
    ProviderOptions := ()
    Temperature := none
    TopP := none
    TopK := none
    FrequencyPenalty := none
    PresencePenalty := none }

/-- The calls of the small tier on the in-memory coordinator up to line 119. -/
def memSmallTrace : List (Call Int Unit Unit Unit) :=
  [Call.CreateAgentToolSessionID "msg1" "call1",
   Call.CreateTaskSession "msg1$$call1" "parent" "New Agent Session",
   Call.buildAgentModels true,
   Call.promptTemplateBuild "openai" "small-1",
   Call.ProvidersGet "openai",
   Call.buildTools,
   Call.SkipRequests]

/-- The in-memory world after the child session ran: the child has cost 7. -/
def memRunWorld : MemWorld := [⟨"parent", 5, ()⟩, ⟨"msg1$$call1", 7, ()⟩]

/-- The in-memory world after a successful delegation: the parent has cost 5 + 7. -/
def memDoneWorld : MemWorld := [⟨"parent", 12, ()⟩, ⟨"msg1$$call1", 7, ()⟩]

/-- The in-memory coordinator with a registry that cannot create sessions. -/
def memNoCreateCoordinator : Coordinator Int (String × String) MemWorld Unit Unit Unit :=
  { memCoordinator memProviders true with
    CreateTaskSession := fun _ _ _ _ w => (.error "registry unavailable", w) }

end InMemory

/-! Lemmas on the two halves of the handler -/

section Lemmas

variable {F Ctx W R O T : Type}

/-- The seven ways through the tier branch (lines 68-117), by tier and by the
results of the calls made. -/
theorem agentToolSelect_cases (c : Coordinator F Ctx W R O T) (ctx : Ctx)
    (params : AgentParams) (w1 : W) (tr1 : List (Call F R O T)) :
    (params.UseSmallModel = false ∧
      c.ProvidersGet (c.largeAgentModel w1).ModelCfg.Provider w1 = none ∧
      agentToolSelect c ctx params w1 tr1
        = .inl ⟨{}, some "model provider not configured", w1,
            tr1 ++ [Call.Model, Call.ProvidersGet (c.largeAgentModel w1).ModelCfg.Provider]⟩) ∨
    (params.UseSmallModel = false ∧ ∃ providerCfg,
      c.ProvidersGet (c.largeAgentModel w1).ModelCfg.Provider w1 = some providerCfg ∧
      agentToolSelect c ctx params w1 tr1
        = .inr ⟨SessionAgent.largeAgent, c.largeAgentModel w1, providerCfg, w1,
            tr1 ++ [Call.Model, Call.ProvidersGet (c.largeAgentModel w1).ModelCfg.Provider]⟩) ∨
    (params.UseSmallModel = true ∧ ∃ e w2,
      c.buildAgentModels ctx true w1 = (.error e, w2) ∧
      agentToolSelect c ctx params w1 tr1
        = .inl ⟨{}, some ("error building models: " ++ e), w2,
            tr1 ++ [Call.buildAgentModels true]⟩) ∨
    (params.UseSmallModel = true ∧ ∃ large small w2 e w3,
      c.buildAgentModels ctx true w1 = (.ok (large, small), w2) ∧
      c.promptTemplateBuild ctx small.Model.Provider small.Model.Model w2 = (.error e, w3) ∧
      agentToolSelect c ctx params w1 tr1
        = .inl ⟨{}, some ("error building system prompt: " ++ e), w3,
            tr1 ++ [Call.buildAgentModels true,
              Call.promptTemplateBuild small.Model.Provider small.Model.Model]⟩) ∨
    (params.UseSmallModel = true ∧ ∃ large small w2 systemPrompt w3,
      c.buildAgentModels ctx true w1 = (.ok (large, small), w2) ∧
      c.promptTemplateBuild ctx small.Model.Provider small.Model.Model w2
        = (.ok systemPrompt, w3) ∧
      c.ProvidersGet small.ModelCfg.Provider w3 = none ∧
      agentToolSelect c ctx params w1 tr1
        = .inl ⟨{}, some "small model provider not configured", w3,
            tr1 ++ [Call.buildAgentModels true,
              Call.promptTemplateBuild small.Model.Provider small.Model.Model,
              Call.ProvidersGet small.ModelCfg.Provider]⟩) ∨
    (params.UseSmallModel = true ∧ ∃ large small w2 systemPrompt w3 smallProviderCfg e w4,
      c.buildAgentModels ctx true w1 = (.ok (large, small), w2) ∧
      c.promptTemplateBuild ctx small.Model.Provider small.Model.Model w2
        = (.ok systemPrompt, w3) ∧
      c.ProvidersGet small.ModelCfg.Provider w3 = some smallProviderCfg ∧
      c.buildTools ctx w3 = (.error e, w4) ∧
      agentToolSelect c ctx params w1 tr1
        = .inl ⟨{}, some ("error building tools: " ++ e), w4,
            tr1 ++ [Call.buildAgentModels true,
              Call.promptTemplateBuild small.Model.Provider small.Model.Model,
              Call.ProvidersGet small.ModelCfg.Provider, Call.buildTools]⟩) ∨
    (params.UseSmallModel = true ∧ ∃ large small w2 systemPrompt w3 smallProviderCfg agentTools w4,
      c.buildAgentModels ctx true w1 = (.ok (large, small), w2) ∧
      c.promptTemplateBuild ctx small.Model.Provider small.Model.Model w2
        = (.ok systemPrompt, w3) ∧
      c.ProvidersGet small.ModelCfg.Provider w3 = some smallProviderCfg ∧
      c.buildTools ctx w3 = (.ok agentTools, w4) ∧
      agentToolSelect c ctx params w1 tr1
        = .inr ⟨SessionAgent.NewSessionAgent
              { LargeModel := small
                SmallModel := small
                SystemPromptPrefix := smallProviderCfg.SystemPromptPrefix
                SystemPrompt := systemPrompt
                DisableAutoSummarize := c.DisableAutoSummarize w4
                IsYolo := c.SkipRequests w4
                Tools := agentTools },
            small, smallProviderCfg, w4,
            tr1 ++ [Call.buildAgentModels true,
              Call.promptTemplateBuild small.Model.Provider small.Model.Model,
              Call.ProvidersGet small.ModelCfg.Provider, Call.buildTools,
              Call.SkipRequests]⟩) := by
  unfold agentToolSelect
  cases hu : params.UseSmallModel
  · rcases hp : c.ProvidersGet (c.largeAgentModel w1).ModelCfg.Provider w1 with _ | providerCfg
    · exact Or.inl ⟨rfl, rfl, by simp [hp]⟩
    · exact Or.inr (Or.inl ⟨rfl, providerCfg, rfl, by simp [hp]⟩)
  · rcases hm : c.buildAgentModels ctx true w1 with ⟨e | ⟨large, small⟩, w2⟩
    · exact Or.inr (Or.inr (Or.inl ⟨rfl, e, w2, rfl, by simp [hm]⟩))
    · rcases hb : c.promptTemplateBuild ctx small.Model.Provider small.Model.Model w2
        with ⟨e | systemPrompt, w3⟩
      · exact Or.inr (Or.inr (Or.inr (Or.inl ⟨rfl, large, small, w2, e, w3, rfl, hb,
          by simp [hm, hb]⟩)))
      · rcases hp : c.ProvidersGet small.ModelCfg.Provider w3 with _ | smallProviderCfg
        · exact Or.inr (Or.inr (Or.inr (Or.inr (Or.inl ⟨rfl, large, small, w2, systemPrompt,
            w3, rfl, hb, hp, by simp [hm, hb, hp]⟩))))
        · rcases ht : c.buildTools ctx w3 with ⟨e | agentTools, w4⟩
          · exact Or.inr (Or.inr (Or.inr (Or.inr (Or.inr (Or.inl ⟨rfl, large, small, w2,
              systemPrompt, w3, smallProviderCfg, e, w4, rfl, hb, hp, ht,
              by simp [hm, hb, hp, ht]⟩)))))
          · exact Or.inr (Or.inr (Or.inr (Or.inr (Or.inr (Or.inr ⟨rfl, large, small, w2,
              systemPrompt, w3, smallProviderCfg, agentTools, w4, rfl, hb, hp, ht,
              by simp [hm, hb, hp, ht]⟩)))))

/-- A return inside the tier branch is a hard error with an empty response, and the
branch calls neither `CreateTaskSession`, `Run`, `Get` nor `Save`. -/
theorem agentToolSelect_inl (c : Coordinator F Ctx W R O T) (ctx : Ctx)
    (params : AgentParams) (w1 : W) (tr1 : List (Call F R O T)) (out : Outcome F W R O T)
    (h : agentToolSelect c ctx params w1 tr1 = .inl out) :
    out.resp = {} ∧ out.err ≠ none ∧
    createTaskSessionCalls out.trace = createTaskSessionCalls tr1 ∧
    runCalls out.trace = runCalls tr1 ∧
    getCalls out.trace = getCalls tr1 ∧
    saveCalls out.trace = saveCalls tr1 := by
  rcases agentToolSelect_cases c ctx params w1 tr1 with
    ⟨_, _, h1⟩ | ⟨_, _, _, h1⟩ | ⟨_, _, _, _, h1⟩ | ⟨_, _, _, _, _, _, _, _, h1⟩ |
    ⟨_, _, _, _, _, _, _, _, _, h1⟩ | ⟨_, _, _, _, _, _, _, _, _, _, _, _, _, h1⟩ |
    ⟨_, _, _, _, _, _, _, _, _, _, _, _, _, h1⟩ <;>
  rw [h1] at h <;> cases h <;>
  simp [createTaskSessionCalls, runCalls, getCalls, saveCalls, List.filterMap_append]

/-- Falling through the tier branch: the branch calls neither `CreateTaskSession`,
`Run`, `Get` nor `Save`. -/
theorem agentToolSelect_inr (c : Coordinator F Ctx W R O T) (ctx : Ctx)
    (params : AgentParams) (w1 : W) (tr1 : List (Call F R O T)) (sel : Selected F W R O T)
    (h : agentToolSelect c ctx params w1 tr1 = .inr sel) :
    createTaskSessionCalls sel.trace = createTaskSessionCalls tr1 ∧
    runCalls sel.trace = runCalls tr1 ∧
    getCalls sel.trace = getCalls tr1 ∧
    saveCalls sel.trace = saveCalls tr1 := by
  rcases agentToolSelect_cases c ctx params w1 tr1 with
    ⟨_, _, h1⟩ | ⟨_, _, _, h1⟩ | ⟨_, _, _, _, h1⟩ | ⟨_, _, _, _, _, _, _, _, h1⟩ |
    ⟨_, _, _, _, _, _, _, _, _, h1⟩ | ⟨_, _, _, _, _, _, _, _, _, _, _, _, _, h1⟩ |
    ⟨_, _, _, _, _, _, _, _, _, _, _, _, _, h1⟩ <;>
  rw [h1] at h <;> cases h <;>
  simp [createTaskSessionCalls, runCalls, getCalls, saveCalls, List.filterMap_append]


/-- Reading the tier branch forwards: when the calls of the chosen tier succeed, the
branch falls through with the agent, model, provider configuration, world and
trace they determine. -/
theorem agentToolSelect_of_resolved (c : Coordinator F Ctx W R O T) (ctx : Ctx)
    (params : AgentParams) (w1 : W) (tr1 : List (Call F R O T)) (a : SessionAgent F T)
    (model : Model F) (pcfg : ProviderConfig) (w : W) (tr : List (Call F R O T))
    (ht :
      ((params.UseSmallModel = false ∧ a = SessionAgent.largeAgent ∧
        model = c.largeAgentModel w1 ∧
        c.ProvidersGet (c.largeAgentModel w1).ModelCfg.Provider w1 = some pcfg ∧ w = w1 ∧
        tr =
          tr1 ++ [Call.Model, Call.ProvidersGet (c.largeAgentModel w1).ModelCfg.Provider]) ∨
       (params.UseSmallModel = true ∧ ∃ large w2 systemPrompt w3 agentTools,
        c.buildAgentModels ctx true w1 = (.ok (large, model), w2) ∧
        c.promptTemplateBuild ctx model.Model.Provider model.Model.Model w2
          = (.ok systemPrompt, w3) ∧
        c.ProvidersGet model.ModelCfg.Provider w3 = some pcfg ∧
        c.buildTools ctx w3 = (.ok agentTools, w) ∧
        a = SessionAgent.NewSessionAgent
          { LargeModel := model
            SmallModel := model
            SystemPromptPrefix := pcfg.SystemPromptPrefix
            SystemPrompt := systemPrompt
            DisableAutoSummarize := c.DisableAutoSummarize w
            IsYolo := c.SkipRequests w
            Tools := agentTools } ∧
        tr =
          tr1 ++ [Call.buildAgentModels true,
            Call.promptTemplateBuild model.Model.Provider model.Model.Model,
            Call.ProvidersGet model.ModelCfg.Provider, Call.buildTools, Call.SkipRequests]))) :
    agentToolSelect c ctx params w1 tr1 = .inr ⟨a, model, pcfg, w, tr⟩ := by
  rcases ht with ⟨hu, ha, hmod, hg, hw, htr⟩ |
    ⟨hu, large, w2, systemPrompt, w3, agentTools, hb, hpb, hg, hbt, ha, htr⟩
  · subst ha hmod hw htr
    simp [agentToolSelect, hu, hg]
  · subst ha htr
    simp [agentToolSelect, hu, hb, hpb, hg, hbt]

/-- Reading the tier branch backwards: when the branch falls through, the calls of
the chosen tier succeeded and determine what was selected. -/
theorem agentToolSelect_inr_resolved (c : Coordinator F Ctx W R O T) (ctx : Ctx)
    (params : AgentParams) (w1 : W) (tr1 : List (Call F R O T)) (sel : Selected F W R O T)
    (h : agentToolSelect c ctx params w1 tr1 = .inr sel) :
    ((params.UseSmallModel = false ∧ sel.selectedAgent = SessionAgent.largeAgent ∧
      sel.model = c.largeAgentModel w1 ∧
      c.ProvidersGet (c.largeAgentModel w1).ModelCfg.Provider w1 = some sel.providerCfg ∧ sel.world = w1 ∧
      sel.trace =
        tr1 ++ [Call.Model, Call.ProvidersGet (c.largeAgentModel w1).ModelCfg.Provider]) ∨
     (params.UseSmallModel = true ∧ ∃ large w2 systemPrompt w3 agentTools,
      c.buildAgentModels ctx true w1 = (.ok (large, sel.model), w2) ∧
      c.promptTemplateBuild ctx sel.model.Model.Provider sel.model.Model.Model w2
        = (.ok systemPrompt, w3) ∧
      c.ProvidersGet sel.model.ModelCfg.Provider w3 = some sel.providerCfg ∧
      c.buildTools ctx w3 = (.ok agentTools, sel.world) ∧
      sel.selectedAgent = SessionAgent.NewSessionAgent
        { LargeModel := sel.model
          SmallModel := sel.model
          SystemPromptPrefix := sel.providerCfg.SystemPromptPrefix
          SystemPrompt := systemPrompt
          DisableAutoSummarize := c.DisableAutoSummarize sel.world
          IsYolo := c.SkipRequests sel.world
          Tools := agentTools } ∧
      sel.trace =
        tr1 ++ [Call.buildAgentModels true,
          Call.promptTemplateBuild sel.model.Model.Provider sel.model.Model.Model,
          Call.ProvidersGet sel.model.ModelCfg.Provider, Call.buildTools, Call.SkipRequests])) := by
  rcases agentToolSelect_cases c ctx params w1 tr1 with
    ⟨_, _, h1⟩ | ⟨hu, pcfg, hg, h1⟩ | ⟨_, _, _, _, h1⟩ | ⟨_, _, _, _, _, _, _, _, h1⟩ |
    ⟨_, _, _, _, _, _, _, _, _, h1⟩ | ⟨_, _, _, _, _, _, _, _, _, _, _, _, _, h1⟩ |
    ⟨hu, large, small, w2, systemPrompt, w3, smallProviderCfg, agentTools, w4, hb, hpb, hg,
      hbt, h1⟩
  · rw [h1] at h; cases h
  · rw [h1] at h; cases h
    exact Or.inl ⟨hu, rfl, rfl, hg, rfl, rfl⟩
  · rw [h1] at h; cases h
  · rw [h1] at h; cases h
  · rw [h1] at h; cases h
  · rw [h1] at h; cases h
  · rw [h1] at h; cases h
    exact Or.inr ⟨hu, large, w2, systemPrompt, w3, agentTools, hb, hpb, hg, hbt, rfl, rfl⟩

variable [Add F]

/-- The five ways through lines 119-153, by the results of the four calls. -/
theorem agentToolRun_cases (c : Coordinator F Ctx W R O T) (ctx : Ctx)
    (params : AgentParams) (sid : String) (session : Session F R) (a : SessionAgent F T)
    (m : Model F) (p : ProviderConfig) (w : W) (tr : List (Call F R O T)) :
    (∃ e w1, c.Run a ctx (runCall c params session m p) w = (.error e, w1) ∧
      agentToolRun c ctx params sid session a m p w tr
        = ⟨NewTextErrorResponse "error generating response", none, w1,
            tr ++ [Call.Run a (runCall c params session m p)]⟩) ∨
    (∃ result w1 e w2, c.Run a ctx (runCall c params session m p) w = (.ok result, w1) ∧
      c.Get ctx session.ID w1 = (.error e, w2) ∧
      agentToolRun c ctx params sid session a m p w tr
        = ⟨{}, some ("error getting session: " ++ e), w2,
            tr ++ [Call.Run a (runCall c params session m p), Call.Get session.ID]⟩) ∨
    (∃ result w1 child w2 e w3, c.Run a ctx (runCall c params session m p) w = (.ok result, w1) ∧
      c.Get ctx session.ID w1 = (.ok child, w2) ∧
      c.Get ctx sid w2 = (.error e, w3) ∧
      agentToolRun c ctx params sid session a m p w tr
        = ⟨{}, some ("error getting parent session: " ++ e), w3,
            tr ++ [Call.Run a (runCall c params session m p), Call.Get session.ID,
              Call.Get sid]⟩) ∨
    (∃ result w1 child w2 parent w3 e w4,
      c.Run a ctx (runCall c params session m p) w = (.ok result, w1) ∧
      c.Get ctx session.ID w1 = (.ok child, w2) ∧
      c.Get ctx sid w2 = (.ok parent, w3) ∧
      c.Save ctx { parent with Cost := parent.Cost + child.Cost } w3 = (.error e, w4) ∧
      agentToolRun c ctx params sid session a m p w tr
        = ⟨{}, some ("error saving parent session: " ++ e), w4,
            tr ++ [Call.Run a (runCall c params session m p), Call.Get session.ID,
              Call.Get sid, Call.Save { parent with Cost := parent.Cost + child.Cost }]⟩) ∨
    (∃ result w1 child w2 parent w3 saved w4,
      c.Run a ctx (runCall c params session m p) w = (.ok result, w1) ∧
      c.Get ctx session.ID w1 = (.ok child, w2) ∧
      c.Get ctx sid w2 = (.ok parent, w3) ∧
      c.Save ctx { parent with Cost := parent.Cost + child.Cost } w3 = (.ok saved, w4) ∧
      agentToolRun c ctx params sid session a m p w tr
        = ⟨NewTextResponse result.Text, none, w4,
            tr ++ [Call.Run a (runCall c params session m p), Call.Get session.ID,
              Call.Get sid, Call.Save { parent with Cost := parent.Cost + child.Cost }]⟩) := by
  unfold agentToolRun
  rcases h1 : c.Run a ctx (runCall c params session m p) w with ⟨e | result, w1⟩
  · exact Or.inl ⟨e, w1, rfl, by simp [h1]⟩
  · rcases h2 : c.Get ctx session.ID w1 with ⟨e | child, w2⟩
    · exact Or.inr (Or.inl ⟨result, w1, e, w2, rfl, h2, by simp [h1, h2]⟩)
    · rcases h3 : c.Get ctx sid w2 with ⟨e | parent, w3⟩
      · exact Or.inr (Or.inr (Or.inl ⟨result, w1, child, w2, e, w3, rfl, h2, h3,
          by simp [h1, h2, h3]⟩))
      · rcases h4 : c.Save ctx { parent with Cost := parent.Cost + child.Cost } w3
          with ⟨e | saved, w4⟩
        · exact Or.inr (Or.inr (Or.inr (Or.inl ⟨result, w1, child, w2, parent, w3, e, w4,
            rfl, h2, h3, h4, by simp [h1, h2, h3, h4]⟩)))
        · exact Or.inr (Or.inr (Or.inr (Or.inr ⟨result, w1, child, w2, parent, w3, saved, w4,
            rfl, h2, h3, h4, by simp [h1, h2, h3, h4]⟩)))

/-- Lines 119-153 do not call `CreateTaskSession`. -/
theorem agentToolRun_createTaskSessionCalls (c : Coordinator F Ctx W R O T) (ctx : Ctx)
    (params : AgentParams) (sid : String) (session : Session F R) (a : SessionAgent F T)
    (m : Model F) (p : ProviderConfig) (w : W) (tr : List (Call F R O T)) :
    createTaskSessionCalls (agentToolRun c ctx params sid session a m p w tr).trace
      = createTaskSessionCalls tr := by
  rcases agentToolRun_cases c ctx params sid session a m p w tr with
    ⟨_, _, _, h⟩ | ⟨_, _, _, _, _, _, h⟩ | ⟨_, _, _, _, _, _, _, _, _, h⟩ |
    ⟨_, _, _, _, _, _, _, _, _, _, _, _, h⟩ | ⟨_, _, _, _, _, _, _, _, _, _, _, _, h⟩ <;>
  simp [h, createTaskSessionCalls, List.filterMap_append]

/-- Lines 119-153 call `Run` exactly once, on the selected agent. -/
theorem agentToolRun_runCalls (c : Coordinator F Ctx W R O T) (ctx : Ctx)
    (params : AgentParams) (sid : String) (session : Session F R) (a : SessionAgent F T)
    (m : Model F) (p : ProviderConfig) (w : W) (tr : List (Call F R O T)) :
    runCalls (agentToolRun c ctx params sid session a m p w tr).trace
      = runCalls tr ++ [(a, runCall c params session m p)] := by
  rcases agentToolRun_cases c ctx params sid session a m p w tr with
    ⟨_, _, _, h⟩ | ⟨_, _, _, _, _, _, h⟩ | ⟨_, _, _, _, _, _, _, _, _, h⟩ |
    ⟨_, _, _, _, _, _, _, _, _, _, _, _, h⟩ | ⟨_, _, _, _, _, _, _, _, _, _, _, _, h⟩ <;>
  simp [h, runCalls, List.filterMap_append]

/-- The three ways through the handler once the prompt and the context are valid:
session creation fails, the tier branch returns, or lines 119-153 run. -/
theorem agentTool_valid_cases (c : Coordinator F Ctx W R O T) (ctx : Ctx)
    (params : AgentParams) (call : ToolCall) (w0 : W)
    (hp : params.Prompt ≠ "") (hs : c.GetSessionFromContext ctx ≠ "")
    (hm : c.GetMessageFromContext ctx ≠ "") :
    (∃ e w1,
      c.CreateTaskSession ctx
        (c.CreateAgentToolSessionID (c.GetMessageFromContext ctx) call.ID)
        (c.GetSessionFromContext ctx) "New Agent Session" w0 = (.error e, w1) ∧
      agentTool c ctx params call w0
        = ⟨{}, some ("error creating session: " ++ e), w1,
            [Call.CreateAgentToolSessionID (c.GetMessageFromContext ctx) call.ID,
             Call.CreateTaskSession
               (c.CreateAgentToolSessionID (c.GetMessageFromContext ctx) call.ID)
               (c.GetSessionFromContext ctx) "New Agent Session"]⟩) ∨
    (∃ session w1 out,
      c.CreateTaskSession ctx
        (c.CreateAgentToolSessionID (c.GetMessageFromContext ctx) call.ID)
        (c.GetSessionFromContext ctx) "New Agent Session" w0 = (.ok session, w1) ∧
      agentToolSelect c ctx params w1
        [Call.CreateAgentToolSessionID (c.GetMessageFromContext ctx) call.ID,
         Call.CreateTaskSession
           (c.CreateAgentToolSessionID (c.GetMessageFromContext ctx) call.ID)
           (c.GetSessionFromContext ctx) "New Agent Session"] = .inl out ∧
      agentTool c ctx params call w0 = out) ∨
    (∃ session w1 sel,
      c.CreateTaskSession ctx
        (c.CreateAgentToolSessionID (c.GetMessageFromContext ctx) call.ID)
        (c.GetSessionFromContext ctx) "New Agent Session" w0 = (.ok session, w1) ∧
      agentToolSelect c ctx params w1
        [Call.CreateAgentToolSessionID (c.GetMessageFromContext ctx) call.ID,
         Call.CreateTaskSession
           (c.CreateAgentToolSessionID (c.GetMessageFromContext ctx) call.ID)
           (c.GetSessionFromContext ctx) "New Agent Session"] = .inr sel ∧
      agentTool c ctx params call w0
        = agentToolRun c ctx params (c.GetSessionFromContext ctx) session sel.selectedAgent
            sel.model sel.providerCfg sel.world sel.trace) := by
  unfold agentTool
  simp only [hp, hs, hm, if_false]
  rcases h1 : c.CreateTaskSession ctx
      (c.CreateAgentToolSessionID (c.GetMessageFromContext ctx) call.ID)
      (c.GetSessionFromContext ctx) "New Agent Session" w0 with ⟨e | session, w1⟩
  · exact Or.inl ⟨e, w1, rfl, rfl⟩
  · rcases h2 : agentToolSelect c ctx params w1
        [Call.CreateAgentToolSessionID (c.GetMessageFromContext ctx) call.ID,
         Call.CreateTaskSession
           (c.CreateAgentToolSessionID (c.GetMessageFromContext ctx) call.ID)
           (c.GetSessionFromContext ctx) "New Agent Session"] with out | sel
    · exact Or.inr (Or.inl ⟨session, w1, out, rfl, h2, by simp [h2]⟩)
    · exact Or.inr (Or.inr ⟨session, w1, sel, rfl, h2, by simp [h2]⟩)

/-- Lines 119-153 make none of the calls of the tier branch. -/
theorem agentToolRun_tierCalls (c : Coordinator F Ctx W R O T) (ctx : Ctx)
    (params : AgentParams) (sid : String) (session : Session F R) (a : SessionAgent F T)
    (m : Model F) (p : ProviderConfig) (w : W) (tr : List (Call F R O T)) :
    buildAgentModelsCalls (agentToolRun c ctx params sid session a m p w tr).trace
      = buildAgentModelsCalls tr ∧
    promptTemplateBuildCalls (agentToolRun c ctx params sid session a m p w tr).trace
      = promptTemplateBuildCalls tr ∧
    providersGetCalls (agentToolRun c ctx params sid session a m p w tr).trace
      = providersGetCalls tr ∧
    buildToolsCalls (agentToolRun c ctx params sid session a m p w tr).trace
      = buildToolsCalls tr := by
  rcases agentToolRun_cases c ctx params sid session a m p w tr with
    ⟨_, _, _, h⟩ | ⟨_, _, _, _, _, _, h⟩ | ⟨_, _, _, _, _, _, _, _, _, h⟩ |
    ⟨_, _, _, _, _, _, _, _, _, _, _, _, h⟩ | ⟨_, _, _, _, _, _, _, _, _, _, _, _, h⟩ <;>
  simp [h, buildAgentModelsCalls, promptTemplateBuildCalls, providersGetCalls,
    buildToolsCalls, List.filterMap_append]

/-- Every invocation calls `CreateTaskSession` at most once; with a valid prompt and
context exactly once, with the derived child id, the context session id and the
fixed label. -/
theorem agentTool_createTaskSessionCalls (c : Coordinator F Ctx W R O T) (ctx : Ctx)
    (params : AgentParams) (call : ToolCall) (w0 : W)
    (hp : params.Prompt ≠ "") (hs : c.GetSessionFromContext ctx ≠ "")
    (hm : c.GetMessageFromContext ctx ≠ "") :
    createTaskSessionCalls (agentTool c ctx params call w0).trace
      = [(c.CreateAgentToolSessionID (c.GetMessageFromContext ctx) call.ID,
          c.GetSessionFromContext ctx, "New Agent Session")] := by
  rcases agentTool_valid_cases c ctx params call w0 hp hs hm with
    ⟨e, w1, _, h⟩ | ⟨session, w1, out, _, h2, h⟩ | ⟨session, w1, sel, _, h2, h⟩
  · simp [h, createTaskSessionCalls]
  · rw [h, (agentToolSelect_inl c ctx params w1 _ out h2).2.2.1]
    simp [createTaskSessionCalls]
  · rw [h, agentToolRun_createTaskSessionCalls, (agentToolSelect_inr c ctx params w1 _ sel h2).1]
    simp [createTaskSessionCalls]

/-- An invocation that reaches `Run` had a valid prompt and context, created its
session, fell through the tier branch, and called `Run` once, on the selected
agent with the call of lines 124-134. -/
theorem agentTool_runCalls_mem (c : Coordinator F Ctx W R O T) (ctx : Ctx)
    (params : AgentParams) (call : ToolCall) (w0 : W) (a : SessionAgent F T)
    (rc : SessionAgentCall F O)
    (h : (a, rc) ∈ runCalls (agentTool c ctx params call w0).trace) :
    ∃ session w1 sel,
      c.CreateTaskSession ctx
        (c.CreateAgentToolSessionID (c.GetMessageFromContext ctx) call.ID)
        (c.GetSessionFromContext ctx) "New Agent Session" w0 = (.ok session, w1) ∧
      agentToolSelect c ctx params w1
        [Call.CreateAgentToolSessionID (c.GetMessageFromContext ctx) call.ID,
         Call.CreateTaskSession
           (c.CreateAgentToolSessionID (c.GetMessageFromContext ctx) call.ID)
           (c.GetSessionFromContext ctx) "New Agent Session"] = .inr sel ∧
      a = sel.selectedAgent ∧
      rc = runCall c params session sel.model sel.providerCfg ∧
      agentTool c ctx params call w0
        = agentToolRun c ctx params (c.GetSessionFromContext ctx) session sel.selectedAgent
            sel.model sel.providerCfg sel.world sel.trace := by
  by_cases hp : params.Prompt = ""
  · simp [agentTool, hp, runCalls] at h
  by_cases hs : c.GetSessionFromContext ctx = ""
  · simp [agentTool, hp, hs, runCalls] at h
  by_cases hm : c.GetMessageFromContext ctx = ""
  · simp [agentTool, hp, hs, hm, runCalls] at h
  rcases agentTool_valid_cases c ctx params call w0 hp hs hm with
    ⟨e, w1, _, h1⟩ | ⟨session, w1, out, _, h2, h1⟩ | ⟨session, w1, sel, hc, h2, h1⟩
  · simp [h1, runCalls] at h
  · rw [h1, (agentToolSelect_inl c ctx params w1 _ out h2).2.2.2.1] at h
    simp [runCalls] at h
  · rw [h1, agentToolRun_runCalls, (agentToolSelect_inr c ctx params w1 _ sel h2).2.1] at h
    simp [runCalls] at h
    exact ⟨session, w1, sel, hc, h2, h.1, h.2, h1⟩

/-- The five paths through lines 119-153, each as the outcome that the results of
the calls made on it determine. -/
theorem agentToolRun_paths (c : Coordinator F Ctx W R O T) (ctx : Ctx)
    (params : AgentParams) (sid : String) (session : Session F R) (a : SessionAgent F T)
    (m : Model F) (p : ProviderConfig) (w : W) (tr : List (Call F R O T)) :
    (∀ e wr, c.Run a ctx (runCall c params session m p) w = (.error e, wr) →
      agentToolRun c ctx params sid session a m p w tr
        = ⟨{ Type_ := "text", Content := "error generating response", IsError := true }, none,
            wr, tr ++ [Call.Run a (runCall c params session m p)]⟩) ∧
    (∀ result wr e wg, c.Run a ctx (runCall c params session m p) w = (.ok result, wr) →
      c.Get ctx session.ID wr = (.error e, wg) →
      agentToolRun c ctx params sid session a m p w tr
        = ⟨{}, some ("error getting session: " ++ e), wg,
            tr ++ [Call.Run a (runCall c params session m p), Call.Get session.ID]⟩) ∧
    (∀ result wr child wg e wp, c.Run a ctx (runCall c params session m p) w = (.ok result, wr) →
      c.Get ctx session.ID wr = (.ok child, wg) →
      c.Get ctx sid wg = (.error e, wp) →
      agentToolRun c ctx params sid session a m p w tr
        = ⟨{}, some ("error getting parent session: " ++ e), wp,
            tr ++ [Call.Run a (runCall c params session m p), Call.Get session.ID, Call.Get sid]⟩) ∧
    (∀ result wr child wg parent wp e ws, c.Run a ctx (runCall c params session m p) w = (.ok result, wr) →
      c.Get ctx session.ID wr = (.ok child, wg) →
      c.Get ctx sid wg = (.ok parent, wp) →
      c.Save ctx { ID := parent.ID, Cost := parent.Cost + child.Cost, rest := parent.rest } wp
        = (.error e, ws) →
      agentToolRun c ctx params sid session a m p w tr
        = ⟨{}, some ("error saving parent session: " ++ e), ws,
            tr ++ [Call.Run a (runCall c params session m p), Call.Get session.ID, Call.Get sid,
              Call.Save { ID := parent.ID, Cost := parent.Cost + child.Cost, rest := parent.rest }]⟩) ∧
    (∀ result wr child wg parent wp saved ws, c.Run a ctx (runCall c params session m p) w = (.ok result, wr) →
      c.Get ctx session.ID wr = (.ok child, wg) →
      c.Get ctx sid wg = (.ok parent, wp) →
      c.Save ctx { ID := parent.ID, Cost := parent.Cost + child.Cost, rest := parent.rest } wp
        = (.ok saved, ws) →
      agentToolRun c ctx params sid session a m p w tr
        = ⟨{ Type_ := "text", Content := result.Text }, none, ws,
            tr ++ [Call.Run a (runCall c params session m p), Call.Get session.ID, Call.Get sid,
              Call.Save { ID := parent.ID, Cost := parent.Cost + child.Cost, rest := parent.rest }]⟩) := by
  refine ⟨?_, ?_, ?_, ?_, ?_⟩
  · intro e wr h1
    simp [agentToolRun, h1, NewTextErrorResponse]
  · intro result wr e wg h1 h2
    simp [agentToolRun, h1, h2]
  · intro result wr child wg e wp h1 h2 h3
    simp [agentToolRun, h1, h2, h3]
  · intro result wr child wg parent wp e ws h1 h2 h3 h4
    simp [agentToolRun, h1, h2, h3, h4]
  · intro result wr child wg parent wp saved ws h1 h2 h3 h4
    simp [agentToolRun, h1, h2, h3, h4, NewTextResponse]

/-- With a valid prompt and context, a created session and a tier branch that falls
through, the handler is lines 119-153 run on what the branch selected. -/
theorem agentTool_eq_agentToolRun (c : Coordinator F Ctx W R O T) (ctx : Ctx)
    (params : AgentParams) (call : ToolCall) (w0 : W)
    (session : Session F R) (w1 : W) (sel : Selected F W R O T)
    (hp : params.Prompt ≠ "") (hs : c.GetSessionFromContext ctx ≠ "")
    (hm : c.GetMessageFromContext ctx ≠ "")
    (hc : c.CreateTaskSession ctx
        (c.CreateAgentToolSessionID (c.GetMessageFromContext ctx) call.ID)
        (c.GetSessionFromContext ctx) "New Agent Session" w0
      = (.ok session, w1))
    (hsel : agentToolSelect c ctx params w1
        [Call.CreateAgentToolSessionID (c.GetMessageFromContext ctx) call.ID,
         Call.CreateTaskSession
           (c.CreateAgentToolSessionID (c.GetMessageFromContext ctx) call.ID)
           (c.GetSessionFromContext ctx) "New Agent Session"] = .inr sel) :
    agentTool c ctx params call w0
      = agentToolRun c ctx params (c.GetSessionFromContext ctx) session sel.selectedAgent
          sel.model sel.providerCfg sel.world sel.trace := by
  simp [agentTool, hp, hs, hm, hc, hsel]

/-- With a valid prompt and context, a created session and a tier branch that falls
through: `Run` is called once, on the selected agent, with the call of lines
124-134, and the outcome is the one that `Run`, `Get`, `Get` and `Save` determine. -/
theorem agentTool_run_paths (c : Coordinator F Ctx W R O T) (ctx : Ctx)
    (params : AgentParams) (call : ToolCall) (w0 : W)
    (session : Session F R) (w1 : W) (sel : Selected F W R O T)
    (hp : params.Prompt ≠ "") (hs : c.GetSessionFromContext ctx ≠ "")
    (hm : c.GetMessageFromContext ctx ≠ "")
    (hc : c.CreateTaskSession ctx
        (c.CreateAgentToolSessionID (c.GetMessageFromContext ctx) call.ID)
        (c.GetSessionFromContext ctx) "New Agent Session" w0
      = (.ok session, w1))
    (hsel : agentToolSelect c ctx params w1
        [Call.CreateAgentToolSessionID (c.GetMessageFromContext ctx) call.ID,
         Call.CreateTaskSession
           (c.CreateAgentToolSessionID (c.GetMessageFromContext ctx) call.ID)
           (c.GetSessionFromContext ctx) "New Agent Session"] = .inr sel) :
    ∀ rc : SessionAgentCall F O,
      rc =
        { SessionID := session.ID
          Prompt := params.Prompt
          MaxOutputTokens :=
            if sel.model.ModelCfg.MaxTokens ≠ 0 then sel.model.ModelCfg.MaxTokens
            else sel.model.CatwalkCfg.DefaultMaxTokens
          ProviderOptions := c.getProviderOptions sel.model sel.providerCfg
          Temperature := sel.model.ModelCfg.Temperature
          TopP := sel.model.ModelCfg.TopP
          TopK := sel.model.ModelCfg.TopK
          FrequencyPenalty := sel.model.ModelCfg.FrequencyPenalty
          PresencePenalty := sel.model.ModelCfg.PresencePenalty } →
      runCalls (agentTool c ctx params call w0).trace = [(sel.selectedAgent, rc)] ∧
      (∀ e wr, c.Run sel.selectedAgent ctx rc sel.world = (.error e, wr) →
        agentTool c ctx params call w0
          = ⟨{ Type_ := "text", Content := "error generating response", IsError := true }, none,
              wr, sel.trace ++ [Call.Run sel.selectedAgent rc]⟩) ∧
      (∀ result wr e wg, c.Run sel.selectedAgent ctx rc sel.world = (.ok result, wr) →
        c.Get ctx session.ID wr = (.error e, wg) →
        agentTool c ctx params call w0
          = ⟨{}, some ("error getting session: " ++ e), wg,
              sel.trace ++ [Call.Run sel.selectedAgent rc, Call.Get session.ID]⟩) ∧
      (∀ result wr child wg e wp, c.Run sel.selectedAgent ctx rc sel.world = (.ok result, wr) →
        c.Get ctx session.ID wr = (.ok child, wg) →
        c.Get ctx (c.GetSessionFromContext ctx) wg = (.error e, wp) →
        agentTool c ctx params call w0
          = ⟨{}, some ("error getting parent session: " ++ e), wp,
              sel.trace ++ [Call.Run sel.selectedAgent rc, Call.Get session.ID, Call.Get (c.GetSessionFromContext ctx)]⟩) ∧
      (∀ result wr child wg parent wp e ws, c.Run sel.selectedAgent ctx rc sel.world = (.ok result, wr) →
        c.Get ctx session.ID wr = (.ok child, wg) →
        c.Get ctx (c.GetSessionFromContext ctx) wg = (.ok parent, wp) →
        c.Save ctx { ID := parent.ID, Cost := parent.Cost + child.Cost, rest := parent.rest } wp
          = (.error e, ws) →
        agentTool c ctx params call w0
          = ⟨{}, some ("error saving parent session: " ++ e), ws,
              sel.trace ++ [Call.Run sel.selectedAgent rc, Call.Get session.ID, Call.Get (c.GetSessionFromContext ctx),
                Call.Save { ID := parent.ID, Cost := parent.Cost + child.Cost, rest := parent.rest }]⟩) ∧
      (∀ result wr child wg parent wp saved ws, c.Run sel.selectedAgent ctx rc sel.world = (.ok result, wr) →
        c.Get ctx session.ID wr = (.ok child, wg) →
        c.Get ctx (c.GetSessionFromContext ctx) wg = (.ok parent, wp) →
        c.Save ctx { ID := parent.ID, Cost := parent.Cost + child.Cost, rest := parent.rest } wp
          = (.ok saved, ws) →
        agentTool c ctx params call w0
          = ⟨{ Type_ := "text", Content := result.Text }, none, ws,
              sel.trace ++ [Call.Run sel.selectedAgent rc, Call.Get session.ID, Call.Get (c.GetSessionFromContext ctx),
                Call.Save { ID := parent.ID, Cost := parent.Cost + child.Cost, rest := parent.rest }]⟩) := by
  intro rc hrc
  have e : rc = runCall c params session sel.model sel.providerCfg := by rw [hrc]; rfl
  have hout := agentTool_eq_agentToolRun c ctx params call w0 session w1 sel hp hs hm hc hsel
  subst e
  rw [hout]
  refine ⟨?_, agentToolRun_paths c ctx params _ session _ _ _ _ _⟩
  rw [agentToolRun_runCalls, (agentToolSelect_inr c ctx params w1 _ sel hsel).2.1]
  simp [runCalls]

end Lemmas

/-! The claims -/

section Claims

variable {F Ctx W R O T : Type} [Add F]

/-- C1: an invocation with an empty prompt, in any context and with either value of
`UseSmallModel`, returns the soft text error response "prompt is required" with a
nil error, calls no collaborator at all (so neither `CreateTaskSession`, `Get` nor
`Save`) and leaves the world, hence every session and the parent cost, as it was. -/
theorem agentTool_empty_prompt (c : Coordinator F Ctx W R O T) (ctx : Ctx)
    (useSmallModel : Bool) (call : ToolCall) (w0 : W) :
    agentTool c ctx ⟨"", useSmallModel⟩ call w0
      = ⟨{ Type_ := "text", Content := "prompt is required", IsError := true },
          none, w0, []⟩ ∧
    createTaskSessionCalls (agentTool c ctx ⟨"", useSmallModel⟩ call w0).trace = [] ∧
    getCalls (agentTool c ctx ⟨"", useSmallModel⟩ call w0).trace = [] ∧
    saveCalls (agentTool c ctx ⟨"", useSmallModel⟩ call w0).trace = [] := by
  have h : agentTool c ctx ⟨"", useSmallModel⟩ call w0
      = ⟨{ Type_ := "text", Content := "prompt is required", IsError := true },
          none, w0, []⟩ := by
    simp [agentTool, NewTextErrorResponse]
  simp [h, createTaskSessionCalls, getCalls, saveCalls]

/-- C6: with a non-empty prompt, an empty session id in the context, or a present
session id with an empty message id, ends the call with a non-nil error ("session
id missing from context" / "agent message id missing from context") and the empty
tool response, which is not flagged as an error response; no collaborator is
called, in particular not `CreateTaskSession`. -/
theorem agentTool_missing_identity (c : Coordinator F Ctx W R O T) (ctx : Ctx)
    (params : AgentParams) (call : ToolCall) (w0 : W) (hp : params.Prompt ≠ "") :
    (c.GetSessionFromContext ctx = "" →
      agentTool c ctx params call w0
        = ⟨{}, some "session id missing from context", w0, []⟩) ∧
    (c.GetSessionFromContext ctx ≠ "" → c.GetMessageFromContext ctx = "" →
      agentTool c ctx params call w0
        = ⟨{}, some "agent message id missing from context", w0, []⟩) ∧
    ((c.GetSessionFromContext ctx = "" ∨ c.GetMessageFromContext ctx = "") →
      (agentTool c ctx params call w0).err ≠ none ∧
      (agentTool c ctx params call w0).resp.IsError = false ∧
      (agentTool c ctx params call w0).resp.Content = "" ∧
      createTaskSessionCalls (agentTool c ctx params call w0).trace = []) := by
  refine ⟨fun hs => ?_, fun hs hm => ?_, fun h => ?_⟩
  · simp [agentTool, hp, hs]
  · simp [agentTool, hp, hs, hm]
  · by_cases hs : c.GetSessionFromContext ctx = ""
    · simp [agentTool, hp, hs, createTaskSessionCalls]
    · have hm : c.GetMessageFromContext ctx = "" := h.resolve_left hs
      simp [agentTool, hp, hs, hm, createTaskSessionCalls]

/-- Witness of C6 on the in-memory coordinator: one context without a session id,
one with a session id and without a message id. -/
theorem agentTool_missing_identity_witness :
    agentTool (memCoordinator memProviders true) ("", "msg1") ⟨"do it", false⟩ memCall memWorld
      = ⟨{}, some "session id missing from context", memWorld, []⟩ ∧
    agentTool (memCoordinator memProviders true) ("parent", "") ⟨"do it", true⟩ memCall memWorld
      = ⟨{}, some "agent message id missing from context", memWorld, []⟩ :=
  ⟨(agentTool_missing_identity (memCoordinator memProviders true) ("", "msg1")
      ⟨"do it", false⟩ memCall memWorld (by decide)).1 rfl,
   (agentTool_missing_identity (memCoordinator memProviders true) ("parent", "")
      ⟨"do it", true⟩ memCall memWorld (by decide)).2.1 (by decide) rfl⟩

/-- C7: an invocation with a non-empty prompt, session id and message id calls
`CreateTaskSession` exactly once, with child id
`CreateAgentToolSessionID(parentMessageID, call.ID)`, the context session id as
parent and the label "New Agent Session"; any other such invocation with the same
message id and call id, whatever its prompt, tier, session id or world, asks for
the same child id.  The call is really made, and made once: when it fails the
handler ends with the wrapped error in the world the call left; when it succeeds,
every path through the rest of the handler starts in the world the call left and
its outcome is the one that the later calls on that path determine.  On the paths
that reach line 124, `Run` is called once, its `SessionID` is the `ID` of the
session the creation returned. -/
theorem agentTool_creates_one_session (c : Coordinator F Ctx W R O T) (ctx : Ctx)
    (params : AgentParams) (call : ToolCall) (w0 : W)
    (hp : params.Prompt ≠ "") (hs : c.GetSessionFromContext ctx ≠ "")
    (hm : c.GetMessageFromContext ctx ≠ "") :
    createTaskSessionCalls (agentTool c ctx params call w0).trace
      = [(c.CreateAgentToolSessionID (c.GetMessageFromContext ctx) call.ID,
          c.GetSessionFromContext ctx, "New Agent Session")] ∧
    (∀ (ctx2 : Ctx) (params2 : AgentParams) (call2 : ToolCall) (w2 : W),
      params2.Prompt ≠ "" → c.GetSessionFromContext ctx2 ≠ "" →
      c.GetMessageFromContext ctx2 = c.GetMessageFromContext ctx → call2.ID = call.ID →
      (createTaskSessionCalls (agentTool c ctx2 params2 call2 w2).trace).map (fun x => x.1)
        = (createTaskSessionCalls (agentTool c ctx params call w0).trace).map
            (fun x => x.1)) ∧
    (∀ e w1,
      c.CreateTaskSession ctx
        (c.CreateAgentToolSessionID (c.GetMessageFromContext ctx) call.ID)
        (c.GetSessionFromContext ctx) "New Agent Session" w0
        = (.error e, w1) →
      agentTool c ctx params call w0
        = ⟨{}, some ("error creating session: " ++ e), w1,
            [Call.CreateAgentToolSessionID (c.GetMessageFromContext ctx) call.ID,
             Call.CreateTaskSession
               (c.CreateAgentToolSessionID (c.GetMessageFromContext ctx) call.ID)
               (c.GetSessionFromContext ctx) "New Agent Session"]⟩) ∧
    (∀ session w1,
      c.CreateTaskSession ctx
        (c.CreateAgentToolSessionID (c.GetMessageFromContext ctx) call.ID)
        (c.GetSessionFromContext ctx) "New Agent Session" w0
        = (.ok session, w1) →
      (params.UseSmallModel = false →
        c.ProvidersGet (c.largeAgentModel w1).ModelCfg.Provider w1 = none →
        agentTool c ctx params call w0
          = ⟨{}, some "model provider not configured", w1,
              [Call.CreateAgentToolSessionID (c.GetMessageFromContext ctx) call.ID,
               Call.CreateTaskSession
                 (c.CreateAgentToolSessionID (c.GetMessageFromContext ctx) call.ID)
                 (c.GetSessionFromContext ctx) "New Agent Session",
               Call.Model,
               Call.ProvidersGet (c.largeAgentModel w1).ModelCfg.Provider]⟩) ∧
      (params.UseSmallModel = true → ∀ e w2,
        c.buildAgentModels ctx true w1 = (.error e, w2) →
        agentTool c ctx params call w0
          = ⟨{}, some ("error building models: " ++ e), w2,
              [Call.CreateAgentToolSessionID (c.GetMessageFromContext ctx) call.ID,
               Call.CreateTaskSession
                 (c.CreateAgentToolSessionID (c.GetMessageFromContext ctx) call.ID)
                 (c.GetSessionFromContext ctx) "New Agent Session",
               Call.buildAgentModels true]⟩) ∧
      (params.UseSmallModel = true → ∀ large small w2 e w3,
        c.buildAgentModels ctx true w1 = (.ok (large, small), w2) →
        c.promptTemplateBuild ctx small.Model.Provider small.Model.Model w2
          = (.error e, w3) →
        agentTool c ctx params call w0
          = ⟨{}, some ("error building system prompt: " ++ e), w3,
              [Call.CreateAgentToolSessionID (c.GetMessageFromContext ctx) call.ID,
               Call.CreateTaskSession
                 (c.CreateAgentToolSessionID (c.GetMessageFromContext ctx) call.ID)
                 (c.GetSessionFromContext ctx) "New Agent Session",
               Call.buildAgentModels true,
               Call.promptTemplateBuild small.Model.Provider small.Model.Model]⟩) ∧
      (params.UseSmallModel = true → ∀ large small w2 systemPrompt w3,
        c.buildAgentModels ctx true w1 = (.ok (large, small), w2) →
        c.promptTemplateBuild ctx small.Model.Provider small.Model.Model w2
          = (.ok systemPrompt, w3) →
        c.ProvidersGet small.ModelCfg.Provider w3 = none →
        agentTool c ctx params call w0
          = ⟨{}, some "small model provider not configured", w3,
              [Call.CreateAgentToolSessionID (c.GetMessageFromContext ctx) call.ID,
               Call.CreateTaskSession
                 (c.CreateAgentToolSessionID (c.GetMessageFromContext ctx) call.ID)
                 (c.GetSessionFromContext ctx) "New Agent Session",
               Call.buildAgentModels true,
               Call.promptTemplateBuild small.Model.Provider small.Model.Model,
               Call.ProvidersGet small.ModelCfg.Provider]⟩) ∧
      (params.UseSmallModel = true → ∀ large small w2 systemPrompt w3 pcfg e w4,
        c.buildAgentModels ctx true w1 = (.ok (large, small), w2) →
        c.promptTemplateBuild ctx small.Model.Provider small.Model.Model w2
          = (.ok systemPrompt, w3) →
        c.ProvidersGet small.ModelCfg.Provider w3 = some pcfg →
        c.buildTools ctx w3 = (.error e, w4) →
        agentTool c ctx params call w0
          = ⟨{}, some ("error building tools: " ++ e), w4,
              [Call.CreateAgentToolSessionID (c.GetMessageFromContext ctx) call.ID,
               Call.CreateTaskSession
                 (c.CreateAgentToolSessionID (c.GetMessageFromContext ctx) call.ID)
                 (c.GetSessionFromContext ctx) "New Agent Session",
               Call.buildAgentModels true,
               Call.promptTemplateBuild small.Model.Provider small.Model.Model,
               Call.ProvidersGet small.ModelCfg.Provider,
               Call.buildTools]⟩) ∧
      (∀ (a : SessionAgent F T) (model : Model F) (pcfg : ProviderConfig) (w : W)
          (tr : List (Call F R O T)),
        ((params.UseSmallModel = false ∧ a = SessionAgent.largeAgent ∧
          model = c.largeAgentModel w1 ∧
          c.ProvidersGet (c.largeAgentModel w1).ModelCfg.Provider w1 = some pcfg ∧ w = w1 ∧
          tr =
            [Call.CreateAgentToolSessionID (c.GetMessageFromContext ctx) call.ID,
             Call.CreateTaskSession
               (c.CreateAgentToolSessionID (c.GetMessageFromContext ctx) call.ID)
               (c.GetSessionFromContext ctx) "New Agent Session",
             Call.Model, Call.ProvidersGet (c.largeAgentModel w1).ModelCfg.Provider]) ∨
         (params.UseSmallModel = true ∧ ∃ large w2 systemPrompt w3 agentTools,
          c.buildAgentModels ctx true w1 = (.ok (large, model), w2) ∧
          c.promptTemplateBuild ctx model.Model.Provider model.Model.Model w2
            = (.ok systemPrompt, w3) ∧
          c.ProvidersGet model.ModelCfg.Provider w3 = some pcfg ∧
          c.buildTools ctx w3 = (.ok agentTools, w) ∧
          a = SessionAgent.NewSessionAgent
            { LargeModel := model
              SmallModel := model
              SystemPromptPrefix := pcfg.SystemPromptPrefix
              SystemPrompt := systemPrompt
              DisableAutoSummarize := c.DisableAutoSummarize w
              IsYolo := c.SkipRequests w
              Tools := agentTools } ∧
          tr =
            [Call.CreateAgentToolSessionID (c.GetMessageFromContext ctx) call.ID,
             Call.CreateTaskSession
               (c.CreateAgentToolSessionID (c.GetMessageFromContext ctx) call.ID)
               (c.GetSessionFromContext ctx) "New Agent Session",
             Call.buildAgentModels true,
             Call.promptTemplateBuild model.Model.Provider model.Model.Model,
             Call.ProvidersGet model.ModelCfg.Provider, Call.buildTools, Call.SkipRequests])) →
        ∀ rc : SessionAgentCall F O,
          rc =
            { SessionID := session.ID
              Prompt := params.Prompt
              MaxOutputTokens :=
                if model.ModelCfg.MaxTokens ≠ 0 then model.ModelCfg.MaxTokens
                else model.CatwalkCfg.DefaultMaxTokens
              ProviderOptions := c.getProviderOptions model pcfg
              Temperature := model.ModelCfg.Temperature
              TopP := model.ModelCfg.TopP
              TopK := model.ModelCfg.TopK
              FrequencyPenalty := model.ModelCfg.FrequencyPenalty
              PresencePenalty := model.ModelCfg.PresencePenalty } →
          rc.SessionID = session.ID ∧
          runCalls (agentTool c ctx params call w0).trace = [(a, rc)] ∧
          (∀ e wr, c.Run a ctx rc w = (.error e, wr) →
            agentTool c ctx params call w0
              = ⟨{ Type_ := "text", Content := "error generating response", IsError := true }, none,
                  wr, tr ++ [Call.Run a rc]⟩) ∧
          (∀ result wr e wg, c.Run a ctx rc w = (.ok result, wr) →
            c.Get ctx session.ID wr = (.error e, wg) →
            agentTool c ctx params call w0
              = ⟨{}, some ("error getting session: " ++ e), wg,
                  tr ++ [Call.Run a rc, Call.Get session.ID]⟩) ∧
          (∀ result wr child wg e wp, c.Run a ctx rc w = (.ok result, wr) →
            c.Get ctx session.ID wr = (.ok child, wg) →
            c.Get ctx (c.GetSessionFromContext ctx) wg = (.error e, wp) →
            agentTool c ctx params call w0
              = ⟨{}, some ("error getting parent session: " ++ e), wp,
                  tr ++ [Call.Run a rc, Call.Get session.ID, Call.Get (c.GetSessionFromContext ctx)]⟩) ∧
          (∀ result wr child wg parent wp e ws, c.Run a ctx rc w = (.ok result, wr) →
            c.Get ctx session.ID wr = (.ok child, wg) →
            c.Get ctx (c.GetSessionFromContext ctx) wg = (.ok parent, wp) →
            c.Save ctx { ID := parent.ID, Cost := parent.Cost + child.Cost, rest := parent.rest } wp
              = (.error e, ws) →
            agentTool c ctx params call w0
              = ⟨{}, some ("error saving parent session: " ++ e), ws,
                  tr ++ [Call.Run a rc, Call.Get session.ID, Call.Get (c.GetSessionFromContext ctx),
                    Call.Save { ID := parent.ID, Cost := parent.Cost + child.Cost, rest := parent.rest }]⟩) ∧
          (∀ result wr child wg parent wp saved ws, c.Run a ctx rc w = (.ok result, wr) →
            c.Get ctx session.ID wr = (.ok child, wg) →
            c.Get ctx (c.GetSessionFromContext ctx) wg = (.ok parent, wp) →
            c.Save ctx { ID := parent.ID, Cost := parent.Cost + child.Cost, rest := parent.rest } wp
              = (.ok saved, ws) →
            agentTool c ctx params call w0
              = ⟨{ Type_ := "text", Content := result.Text }, none, ws,
                  tr ++ [Call.Run a rc, Call.Get session.ID, Call.Get (c.GetSessionFromContext ctx),
                    Call.Save { ID := parent.ID, Cost := parent.Cost + child.Cost, rest := parent.rest }]⟩))) := by
  refine ⟨agentTool_createTaskSessionCalls c ctx params call w0 hp hs hm, ?_, ?_, ?_⟩
  · intro ctx2 params2 call2 w2 hp2 hs2 hm2 hid
    rw [agentTool_createTaskSessionCalls c ctx params call w0 hp hs hm,
      agentTool_createTaskSessionCalls c ctx2 params2 call2 w2 hp2 hs2 (by rw [hm2]; exact hm)]
    simp [hm2, hid]
  · intro e w1 hc
    simp [agentTool, hp, hs, hm, hc]
  · intro session w1 hc
    refine ⟨?_, ?_, ?_, ?_, ?_, ?_⟩
    · intro hu hg
      simp [agentTool, hp, hs, hm, hc, agentToolSelect, hu, hg]
    · intro hu e w2 hb
      simp [agentTool, hp, hs, hm, hc, agentToolSelect, hu, hb]
    · intro hu large small w2 e w3 hb hpb
      simp [agentTool, hp, hs, hm, hc, agentToolSelect, hu, hb, hpb]
    · intro hu large small w2 systemPrompt w3 hb hpb hg
      simp [agentTool, hp, hs, hm, hc, agentToolSelect, hu, hb, hpb, hg]
    · intro hu large small w2 systemPrompt w3 pcfg e w4 hb hpb hg hbt
      simp [agentTool, hp, hs, hm, hc, agentToolSelect, hu, hb, hpb, hg, hbt]
    · intro a model pcfg w tr ht rc hrc
      have hsel := agentToolSelect_of_resolved c ctx params w1
        [Call.CreateAgentToolSessionID (c.GetMessageFromContext ctx) call.ID,
         Call.CreateTaskSession
           (c.CreateAgentToolSessionID (c.GetMessageFromContext ctx) call.ID)
           (c.GetSessionFromContext ctx) "New Agent Session"] a model pcfg w tr ht
      refine ⟨by rw [hrc], ?_⟩
      exact agentTool_run_paths c ctx params call w0 session w1 ⟨a, model, pcfg, w, tr⟩
        hp hs hm hc hsel rc hrc

/-- Witness of C7 on the in-memory coordinator.  Large tier, every call succeeding:
`Run` gets the id of the created child session, and the outcome is the one the
calls determine (the child created, run, and rolled up into the parent).  With a
registry that cannot create sessions, the outcome is the wrapped error. -/
theorem agentTool_creates_one_session_witness :
    (memLargeRunCall.SessionID = memChild.ID ∧
     agentTool (memCoordinator memProviders true) memCtx ⟨"do it", false⟩ memCall memWorld
      = ⟨{ Type_ := "text", Content := "done" }, none, memDoneWorld,
          memLargeSelected.trace ++
            [Call.Run SessionAgent.largeAgent memLargeRunCall, Call.Get "msg1$$call1",
             Call.Get "parent", Call.Save ⟨"parent", 12, ()⟩]⟩) ∧
    agentTool memNoCreateCoordinator memCtx ⟨"do it", false⟩ memCall memWorld
      = ⟨{}, some "error creating session: registry unavailable", memWorld,
          [Call.CreateAgentToolSessionID "msg1" "call1",
           Call.CreateTaskSession "msg1$$call1" "parent" "New Agent Session"]⟩ := by
  have h := (agentTool_creates_one_session (memCoordinator memProviders true) memCtx
    ⟨"do it", false⟩ memCall memWorld (by decide) (by decide) (by decide)).2.2.2
    memChild (memWorld ++ [memChild]) rfl
  have hr := h.2.2.2.2.2 SessionAgent.largeAgent memLargeModel
    ⟨"anthropic", "You are large."⟩ (memWorld ++ [memChild]) memLargeSelected.trace
    (Or.inl ⟨rfl, rfl, rfl, rfl, rfl, rfl⟩) memLargeRunCall rfl
  exact ⟨⟨hr.1, hr.2.2.2.2.2.2 ⟨"done"⟩ memRunWorld ⟨"msg1$$call1", 7, ()⟩ memRunWorld
    ⟨"parent", 5, ()⟩ memRunWorld ⟨"parent", 12, ()⟩ memDoneWorld rfl rfl rfl rfl⟩,
    (agentTool_creates_one_session memNoCreateCoordinator memCtx ⟨"do it", false⟩ memCall
      memWorld (by decide) (by decide) (by decide)).2.2.1 "registry unavailable" memWorld
      rfl⟩

/-- C8: in an invocation with a valid prompt and context whose session was created,
when the calls of the chosen tier succeed (which is when line 124 is reached),
`Run` is called once with `MaxOutputTokens` equal to the selected model's
`ModelCfg.MaxTokens` when that is non-zero and to its `CatwalkCfg.DefaultMaxTokens`
otherwise, and the outcome is the one that this `Run` call and the calls after it
determine; the selected model is the small model that `buildAgentModels` returned
when `UseSmallModel` is true and the model of the pre-built large agent otherwise.
Conversely every `Run` call of the invocation is such a call. -/
theorem agentTool_max_output_tokens (c : Coordinator F Ctx W R O T) (ctx : Ctx)
    (params : AgentParams) (call : ToolCall) (w0 : W)
    (session : Session F R) (w1 : W)
    (hp : params.Prompt ≠ "") (hs : c.GetSessionFromContext ctx ≠ "")
    (hm : c.GetMessageFromContext ctx ≠ "")
    (hc : c.CreateTaskSession ctx
        (c.CreateAgentToolSessionID (c.GetMessageFromContext ctx) call.ID)
        (c.GetSessionFromContext ctx) "New Agent Session" w0
      = (.ok session, w1)) :
    (∀ (a : SessionAgent F T) (model : Model F) (pcfg : ProviderConfig) (w : W)
        (tr : List (Call F R O T)),
      ((params.UseSmallModel = false ∧ a = SessionAgent.largeAgent ∧
        model = c.largeAgentModel w1 ∧
        c.ProvidersGet (c.largeAgentModel w1).ModelCfg.Provider w1 = some pcfg ∧ w = w1 ∧
        tr =
          [Call.CreateAgentToolSessionID (c.GetMessageFromContext ctx) call.ID,
           Call.CreateTaskSession
             (c.CreateAgentToolSessionID (c.GetMessageFromContext ctx) call.ID)
             (c.GetSessionFromContext ctx) "New Agent Session",
           Call.Model, Call.ProvidersGet (c.largeAgentModel w1).ModelCfg.Provider]) ∨
       (params.UseSmallModel = true ∧ ∃ large w2 systemPrompt w3 agentTools,
        c.buildAgentModels ctx true w1 = (.ok (large, model), w2) ∧
        c.promptTemplateBuild ctx model.Model.Provider model.Model.Model w2
          = (.ok systemPrompt, w3) ∧
        c.ProvidersGet model.ModelCfg.Provider w3 = some pcfg ∧
        c.buildTools ctx w3 = (.ok agentTools, w) ∧
        a = SessionAgent.NewSessionAgent
          { LargeModel := model
            SmallModel := model
            SystemPromptPrefix := pcfg.SystemPromptPrefix
            SystemPrompt := systemPrompt
            DisableAutoSummarize := c.DisableAutoSummarize w
            IsYolo := c.SkipRequests w
            Tools := agentTools } ∧
        tr =
          [Call.CreateAgentToolSessionID (c.GetMessageFromContext ctx) call.ID,
           Call.CreateTaskSession
             (c.CreateAgentToolSessionID (c.GetMessageFromContext ctx) call.ID)
             (c.GetSessionFromContext ctx) "New Agent Session",
           Call.buildAgentModels true,
           Call.promptTemplateBuild model.Model.Provider model.Model.Model,
           Call.ProvidersGet model.ModelCfg.Provider, Call.buildTools, Call.SkipRequests])) →
      ∀ rc : SessionAgentCall F O,
        rc =
          { SessionID := session.ID
            Prompt := params.Prompt
            MaxOutputTokens :=
              if model.ModelCfg.MaxTokens ≠ 0 then model.ModelCfg.MaxTokens
              else model.CatwalkCfg.DefaultMaxTokens
            ProviderOptions := c.getProviderOptions model pcfg
            Temperature := model.ModelCfg.Temperature
            TopP := model.ModelCfg.TopP
            TopK := model.ModelCfg.TopK
            FrequencyPenalty := model.ModelCfg.FrequencyPenalty
            PresencePenalty := model.ModelCfg.PresencePenalty } →
        (model.ModelCfg.MaxTokens ≠ 0 → rc.MaxOutputTokens = model.ModelCfg.MaxTokens) ∧
        (model.ModelCfg.MaxTokens = 0 →
          rc.MaxOutputTokens = model.CatwalkCfg.DefaultMaxTokens) ∧
        runCalls (agentTool c ctx params call w0).trace = [(a, rc)] ∧
        (∀ e wr, c.Run a ctx rc w = (.error e, wr) →
          agentTool c ctx params call w0
            = ⟨{ Type_ := "text", Content := "error generating response", IsError := true }, none,
                wr, tr ++ [Call.Run a rc]⟩) ∧
        (∀ result wr e wg, c.Run a ctx rc w = (.ok result, wr) →
          c.Get ctx session.ID wr = (.error e, wg) →
          agentTool c ctx params call w0
            = ⟨{}, some ("error getting session: " ++ e), wg,
                tr ++ [Call.Run a rc, Call.Get session.ID]⟩) ∧
        (∀ result wr child wg e wp, c.Run a ctx rc w = (.ok result, wr) →
          c.Get ctx session.ID wr = (.ok child, wg) →
          c.Get ctx (c.GetSessionFromContext ctx) wg = (.error e, wp) →
          agentTool c ctx params call w0
            = ⟨{}, some ("error getting parent session: " ++ e), wp,
                tr ++ [Call.Run a rc, Call.Get session.ID, Call.Get (c.GetSessionFromContext ctx)]⟩) ∧
        (∀ result wr child wg parent wp e ws, c.Run a ctx rc w = (.ok result, wr) →
          c.Get ctx session.ID wr = (.ok child, wg) →
          c.Get ctx (c.GetSessionFromContext ctx) wg = (.ok parent, wp) →
          c.Save ctx { ID := parent.ID, Cost := parent.Cost + child.Cost, rest := parent.rest } wp
            = (.error e, ws) →
          agentTool c ctx params call w0
            = ⟨{}, some ("error saving parent session: " ++ e), ws,
                tr ++ [Call.Run a rc, Call.Get session.ID, Call.Get (c.GetSessionFromContext ctx),
                  Call.Save { ID := parent.ID, Cost := parent.Cost + child.Cost, rest := parent.rest }]⟩) ∧
        (∀ result wr child wg parent wp saved ws, c.Run a ctx rc w = (.ok result, wr) →
          c.Get ctx session.ID wr = (.ok child, wg) →
          c.Get ctx (c.GetSessionFromContext ctx) wg = (.ok parent, wp) →
          c.Save ctx { ID := parent.ID, Cost := parent.Cost + child.Cost, rest := parent.rest } wp
            = (.ok saved, ws) →
          agentTool c ctx params call w0
            = ⟨{ Type_ := "text", Content := result.Text }, none, ws,
                tr ++ [Call.Run a rc, Call.Get session.ID, Call.Get (c.GetSessionFromContext ctx),
                  Call.Save { ID := parent.ID, Cost := parent.Cost + child.Cost, rest := parent.rest }]⟩)) ∧
    (∀ (a : SessionAgent F T) (rc : SessionAgentCall F O),
      (a, rc) ∈ runCalls (agentTool c ctx params call w0).trace →
      ∃ (model : Model F) (pcfg : ProviderConfig) (w : W) (tr : List (Call F R O T)),
        ((params.UseSmallModel = false ∧ a = SessionAgent.largeAgent ∧
          model = c.largeAgentModel w1 ∧
          c.ProvidersGet (c.largeAgentModel w1).ModelCfg.Provider w1 = some pcfg ∧ w = w1 ∧
          tr =
            [Call.CreateAgentToolSessionID (c.GetMessageFromContext ctx) call.ID,
             Call.CreateTaskSession
               (c.CreateAgentToolSessionID (c.GetMessageFromContext ctx) call.ID)
               (c.GetSessionFromContext ctx) "New Agent Session",
             Call.Model, Call.ProvidersGet (c.largeAgentModel w1).ModelCfg.Provider]) ∨
         (params.UseSmallModel = true ∧ ∃ large w2 systemPrompt w3 agentTools,
          c.buildAgentModels ctx true w1 = (.ok (large, model), w2) ∧
          c.promptTemplateBuild ctx model.Model.Provider model.Model.Model w2
            = (.ok systemPrompt, w3) ∧
          c.ProvidersGet model.ModelCfg.Provider w3 = some pcfg ∧
          c.buildTools ctx w3 = (.ok agentTools, w) ∧
          a = SessionAgent.NewSessionAgent
            { LargeModel := model
              SmallModel := model
              SystemPromptPrefix := pcfg.SystemPromptPrefix
              SystemPrompt := systemPrompt
              DisableAutoSummarize := c.DisableAutoSummarize w
              IsYolo := c.SkipRequests w
              Tools := agentTools } ∧
          tr =
            [Call.CreateAgentToolSessionID (c.GetMessageFromContext ctx) call.ID,
             Call.CreateTaskSession
               (c.CreateAgentToolSessionID (c.GetMessageFromContext ctx) call.ID)
               (c.GetSessionFromContext ctx) "New Agent Session",
             Call.buildAgentModels true,
             Call.promptTemplateBuild model.Model.Provider model.Model.Model,
             Call.ProvidersGet model.ModelCfg.Provider, Call.buildTools, Call.SkipRequests])) ∧
        rc =
          { SessionID := session.ID
            Prompt := params.Prompt
            MaxOutputTokens :=
              if model.ModelCfg.MaxTokens ≠ 0 then model.ModelCfg.MaxTokens
              else model.CatwalkCfg.DefaultMaxTokens
            ProviderOptions := c.getProviderOptions model pcfg
            Temperature := model.ModelCfg.Temperature
            TopP := model.ModelCfg.TopP
            TopK := model.ModelCfg.TopK
            FrequencyPenalty := model.ModelCfg.FrequencyPenalty
            PresencePenalty := model.ModelCfg.PresencePenalty }) := by
  constructor
  · intro a model pcfg w tr ht rc hrc
    have hsel := agentToolSelect_of_resolved c ctx params w1
      [Call.CreateAgentToolSessionID (c.GetMessageFromContext ctx) call.ID,
       Call.CreateTaskSession
         (c.CreateAgentToolSessionID (c.GetMessageFromContext ctx) call.ID)
         (c.GetSessionFromContext ctx) "New Agent Session"] a model pcfg w tr ht
    refine ⟨?_, ?_, ?_⟩
    · intro h0
      rw [hrc]
      simp [h0]
    · intro h0
      rw [hrc]
      simp [h0]
    · exact agentTool_run_paths c ctx params call w0 session w1 ⟨a, model, pcfg, w, tr⟩
        hp hs hm hc hsel rc hrc
  · intro a rc hmem
    obtain ⟨session2, w12, sel, hc2, h2, ha, hrc, _⟩ :=
      agentTool_runCalls_mem c ctx params call w0 a rc hmem
    rw [hc] at hc2
    cases hc2
    refine ⟨sel.model, sel.providerCfg, sel.world, sel.trace, ?_, ?_⟩
    · rw [ha]
      exact agentToolSelect_inr_resolved c ctx params w1 _ sel h2
    · rw [hrc]
      rfl

/-- Witness of C8 on the in-memory coordinator, every call succeeding.  Small tier:
the small model has the configured limit 512 and `Run` is called with 512, not
with the catalog default 2048.  Large tier: the large model has no configured
limit and `Run` is called with the catalog default 4096. -/
theorem agentTool_max_output_tokens_witness :
    (memSmallRunCall.MaxOutputTokens = 512 ∧
     agentTool (memCoordinator memProviders true) memCtx ⟨"do it", true⟩ memCall memWorld
      = ⟨{ Type_ := "text", Content := "done" }, none, memDoneWorld,
          memSmallTrace ++
            [Call.Run memSmallAgent memSmallRunCall, Call.Get "msg1$$call1",
             Call.Get "parent", Call.Save ⟨"parent", 12, ()⟩]⟩) ∧
    (memLargeRunCall.MaxOutputTokens = 4096 ∧
     agentTool (memCoordinator memProviders true) memCtx ⟨"do it", false⟩ memCall memWorld
      = ⟨{ Type_ := "text", Content := "done" }, none, memDoneWorld,
          memLargeSelected.trace ++
            [Call.Run SessionAgent.largeAgent memLargeRunCall, Call.Get "msg1$$call1",
             Call.Get "parent", Call.Save ⟨"parent", 12, ()⟩]⟩) := by
  have h := (agentTool_max_output_tokens (memCoordinator memProviders true) memCtx
    ⟨"do it", true⟩ memCall memWorld memChild (memWorld ++ [memChild])
    (by decide) (by decide) (by decide) rfl).1
    memSmallAgent memSmallModel ⟨"openai", "You are small."⟩ (memWorld ++ [memChild])
    memSmallTrace
    (Or.inr ⟨rfl, memLargeModel, memWorld ++ [memChild], "task prompt for small-1",
      memWorld ++ [memChild], (), rfl, rfl, rfl, rfl, rfl, rfl⟩)
    memSmallRunCall rfl
  have hl := (agentTool_max_output_tokens (memCoordinator memProviders true) memCtx
    ⟨"do it", false⟩ memCall memWorld memChild (memWorld ++ [memChild])
    (by decide) (by decide) (by decide) rfl).1
    SessionAgent.largeAgent memLargeModel ⟨"anthropic", "You are large."⟩
    (memWorld ++ [memChild]) memLargeSelected.trace
    (Or.inl ⟨rfl, rfl, rfl, rfl, rfl, rfl⟩) memLargeRunCall rfl
  exact ⟨⟨h.1 (by decide), h.2.2.2.2.2.2.2 ⟨"done"⟩ memRunWorld ⟨"msg1$$call1", 7, ()⟩
      memRunWorld ⟨"parent", 5, ()⟩ memRunWorld ⟨"parent", 12, ()⟩ memDoneWorld
      rfl rfl rfl rfl⟩,
    ⟨hl.2.1 rfl, hl.2.2.2.2.2.2.2 ⟨"done"⟩ memRunWorld ⟨"msg1$$call1", 7, ()⟩
      memRunWorld ⟨"parent", 5, ()⟩ memRunWorld ⟨"parent", 12, ()⟩ memDoneWorld
      rfl rfl rfl rfl⟩⟩

/-- C9: in an invocation with a valid prompt and context whose session was created,
when the calls of the chosen tier succeed (which is when line 124 is reached):
with `UseSmallModel = false` the selected agent is the pre-built large agent and
the invocation calls neither `buildAgentModels`, `promptTemplate.Build` nor
`buildTools`; with `UseSmallModel = true` the invocation calls `buildAgentModels`,
`promptTemplate.Build`, `Providers.Get` and `buildTools` once each, each in the
world the previous call left, and the selected agent is newly made by
`NewSessionAgent` with the small model in both model slots, which is not the
pre-built large agent.  In both tiers `Run` is called once, on the selected agent,
and the outcome is the one that this `Run` call and the calls after it determine.
Conversely every `Run` call of the invocation is on an agent selected so. -/
theorem agentTool_tier_selection (c : Coordinator F Ctx W R O T) (ctx : Ctx)
    (params : AgentParams) (call : ToolCall) (w0 : W)
    (session : Session F R) (w1 : W)
    (hp : params.Prompt ≠ "") (hs : c.GetSessionFromContext ctx ≠ "")
    (hm : c.GetMessageFromContext ctx ≠ "")
    (hc : c.CreateTaskSession ctx
        (c.CreateAgentToolSessionID (c.GetMessageFromContext ctx) call.ID)
        (c.GetSessionFromContext ctx) "New Agent Session" w0
      = (.ok session, w1)) :
    (∀ (a : SessionAgent F T) (model : Model F) (pcfg : ProviderConfig) (w : W)
        (tr : List (Call F R O T)),
      ((params.UseSmallModel = false ∧ a = SessionAgent.largeAgent ∧
        model = c.largeAgentModel w1 ∧
        c.ProvidersGet (c.largeAgentModel w1).ModelCfg.Provider w1 = some pcfg ∧ w = w1 ∧
        tr =
          [Call.CreateAgentToolSessionID (c.GetMessageFromContext ctx) call.ID,
           Call.CreateTaskSession
             (c.CreateAgentToolSessionID (c.GetMessageFromContext ctx) call.ID)
             (c.GetSessionFromContext ctx) "New Agent Session",
           Call.Model, Call.ProvidersGet (c.largeAgentModel w1).ModelCfg.Provider]) ∨
       (params.UseSmallModel = true ∧ ∃ large w2 systemPrompt w3 agentTools,
        c.buildAgentModels ctx true w1 = (.ok (large, model), w2) ∧
        c.promptTemplateBuild ctx model.Model.Provider model.Model.Model w2
          = (.ok systemPrompt, w3) ∧
        c.ProvidersGet model.ModelCfg.Provider w3 = some pcfg ∧
        c.buildTools ctx w3 = (.ok agentTools, w) ∧
        a = SessionAgent.NewSessionAgent
          { LargeModel := model
            SmallModel := model
            SystemPromptPrefix := pcfg.SystemPromptPrefix
            SystemPrompt := systemPrompt
            DisableAutoSummarize := c.DisableAutoSummarize w
            IsYolo := c.SkipRequests w
            Tools := agentTools } ∧
        tr =
          [Call.CreateAgentToolSessionID (c.GetMessageFromContext ctx) call.ID,
           Call.CreateTaskSession
             (c.CreateAgentToolSessionID (c.GetMessageFromContext ctx) call.ID)
             (c.GetSessionFromContext ctx) "New Agent Session",
           Call.buildAgentModels true,
           Call.promptTemplateBuild model.Model.Provider model.Model.Model,
           Call.ProvidersGet model.ModelCfg.Provider, Call.buildTools, Call.SkipRequests])) →
      (params.UseSmallModel = false →
        a = SessionAgent.largeAgent ∧
        buildAgentModelsCalls (agentTool c ctx params call w0).trace = [] ∧
        promptTemplateBuildCalls (agentTool c ctx params call w0).trace = [] ∧
        buildToolsCalls (agentTool c ctx params call w0).trace = []) ∧
      (params.UseSmallModel = true →
        a ≠ SessionAgent.largeAgent ∧
        (∃ opts, a = SessionAgent.NewSessionAgent opts ∧
          opts.LargeModel = model ∧ opts.SmallModel = model) ∧
        buildAgentModelsCalls (agentTool c ctx params call w0).trace = [true] ∧
        promptTemplateBuildCalls (agentTool c ctx params call w0).trace
          = [(model.Model.Provider, model.Model.Model)] ∧
        providersGetCalls (agentTool c ctx params call w0).trace = [model.ModelCfg.Provider] ∧
        buildToolsCalls (agentTool c ctx params call w0).trace = [()]) ∧
      ∀ rc : SessionAgentCall F O,
        rc =
          { SessionID := session.ID
            Prompt := params.Prompt
            MaxOutputTokens :=
              if model.ModelCfg.MaxTokens ≠ 0 then model.ModelCfg.MaxTokens
              else model.CatwalkCfg.DefaultMaxTokens
            ProviderOptions := c.getProviderOptions model pcfg
            Temperature := model.ModelCfg.Temperature
            TopP := model.ModelCfg.TopP
            TopK := model.ModelCfg.TopK
            FrequencyPenalty := model.ModelCfg.FrequencyPenalty
            PresencePenalty := model.ModelCfg.PresencePenalty } →
        runCalls (agentTool c ctx params call w0).trace = [(a, rc)] ∧
        (∀ e wr, c.Run a ctx rc w = (.error e, wr) →
          agentTool c ctx params call w0
            = ⟨{ Type_ := "text", Content := "error generating response", IsError := true }, none,
                wr, tr ++ [Call.Run a rc]⟩) ∧
        (∀ result wr e wg, c.Run a ctx rc w = (.ok result, wr) →
          c.Get ctx session.ID wr = (.error e, wg) →
          agentTool c ctx params call w0
            = ⟨{}, some ("error getting session: " ++ e), wg,
                tr ++ [Call.Run a rc, Call.Get session.ID]⟩) ∧
        (∀ result wr child wg e wp, c.Run a ctx rc w = (.ok result, wr) →
          c.Get ctx session.ID wr = (.ok child, wg) →
          c.Get ctx (c.GetSessionFromContext ctx) wg = (.error e, wp) →
          agentTool c ctx params call w0
            = ⟨{}, some ("error getting parent session: " ++ e), wp,
                tr ++ [Call.Run a rc, Call.Get session.ID, Call.Get (c.GetSessionFromContext ctx)]⟩) ∧
        (∀ result wr child wg parent wp e ws, c.Run a ctx rc w = (.ok result, wr) →
          c.Get ctx session.ID wr = (.ok child, wg) →
          c.Get ctx (c.GetSessionFromContext ctx) wg = (.ok parent, wp) →
          c.Save ctx { ID := parent.ID, Cost := parent.Cost + child.Cost, rest := parent.rest } wp
            = (.error e, ws) →
          agentTool c ctx params call w0
            = ⟨{}, some ("error saving parent session: " ++ e), ws,
                tr ++ [Call.Run a rc, Call.Get session.ID, Call.Get (c.GetSessionFromContext ctx),
                  Call.Save { ID := parent.ID, Cost := parent.Cost + child.Cost, rest := parent.rest }]⟩) ∧
        (∀ result wr child wg parent wp saved ws, c.Run a ctx rc w = (.ok result, wr) →
          c.Get ctx session.ID wr = (.ok child, wg) →
          c.Get ctx (c.GetSessionFromContext ctx) wg = (.ok parent, wp) →
          c.Save ctx { ID := parent.ID, Cost := parent.Cost + child.Cost, rest := parent.rest } wp
            = (.ok saved, ws) →
          agentTool c ctx params call w0
            = ⟨{ Type_ := "text", Content := result.Text }, none, ws,
                tr ++ [Call.Run a rc, Call.Get session.ID, Call.Get (c.GetSessionFromContext ctx),
                  Call.Save { ID := parent.ID, Cost := parent.Cost + child.Cost, rest := parent.rest }]⟩)) ∧
    (∀ (a : SessionAgent F T) (rc : SessionAgentCall F O),
      (a, rc) ∈ runCalls (agentTool c ctx params call w0).trace →
      ∃ (model : Model F) (pcfg : ProviderConfig) (w : W) (tr : List (Call F R O T)),
        ((params.UseSmallModel = false ∧ a = SessionAgent.largeAgent ∧
          model = c.largeAgentModel w1 ∧
          c.ProvidersGet (c.largeAgentModel w1).ModelCfg.Provider w1 = some pcfg ∧ w = w1 ∧
          tr =
            [Call.CreateAgentToolSessionID (c.GetMessageFromContext ctx) call.ID,
             Call.CreateTaskSession
               (c.CreateAgentToolSessionID (c.GetMessageFromContext ctx) call.ID)
               (c.GetSessionFromContext ctx) "New Agent Session",
             Call.Model, Call.ProvidersGet (c.largeAgentModel w1).ModelCfg.Provider]) ∨
         (params.UseSmallModel = true ∧ ∃ large w2 systemPrompt w3 agentTools,
          c.buildAgentModels ctx true w1 = (.ok (large, model), w2) ∧
          c.promptTemplateBuild ctx model.Model.Provider model.Model.Model w2
            = (.ok systemPrompt, w3) ∧
          c.ProvidersGet model.ModelCfg.Provider w3 = some pcfg ∧
          c.buildTools ctx w3 = (.ok agentTools, w) ∧
          a = SessionAgent.NewSessionAgent
            { LargeModel := model
              SmallModel := model
              SystemPromptPrefix := pcfg.SystemPromptPrefix
              SystemPrompt := systemPrompt
              DisableAutoSummarize := c.DisableAutoSummarize w
              IsYolo := c.SkipRequests w
              Tools := agentTools } ∧
          tr =
            [Call.CreateAgentToolSessionID (c.GetMessageFromContext ctx) call.ID,
             Call.CreateTaskSession
               (c.CreateAgentToolSessionID (c.GetMessageFromContext ctx) call.ID)
               (c.GetSessionFromContext ctx) "New Agent Session",
             Call.buildAgentModels true,
             Call.promptTemplateBuild model.Model.Provider model.Model.Model,
             Call.ProvidersGet model.ModelCfg.Provider, Call.buildTools, Call.SkipRequests]))) := by
  constructor
  · intro a model pcfg w tr ht
    have hsel := agentToolSelect_of_resolved c ctx params w1
      [Call.CreateAgentToolSessionID (c.GetMessageFromContext ctx) call.ID,
       Call.CreateTaskSession
         (c.CreateAgentToolSessionID (c.GetMessageFromContext ctx) call.ID)
         (c.GetSessionFromContext ctx) "New Agent Session"] a model pcfg w tr ht
    have hout := agentTool_eq_agentToolRun c ctx params call w0 session w1
      ⟨a, model, pcfg, w, tr⟩ hp hs hm hc hsel
    obtain ⟨t1, t2, t3, t4⟩ := agentToolRun_tierCalls c ctx params
      (c.GetSessionFromContext ctx) session a model pcfg w tr
    rw [← hout] at t1 t2 t3 t4
    rw [t1, t2, t3, t4]
    refine ⟨?_, ?_, ?_⟩
    · intro hu
      rcases ht with ⟨_, ha, _, _, _, htr⟩ | ⟨hu2, _⟩
      · subst htr
        exact ⟨ha, by simp [buildAgentModelsCalls], by simp [promptTemplateBuildCalls],
          by simp [buildToolsCalls]⟩
      · rw [hu] at hu2; cases hu2
    · intro hu
      rcases ht with ⟨hu2, _⟩ | ⟨_, large, w2, systemPrompt, w3, agentTools, _, _, _, _, ha, htr⟩
      · rw [hu] at hu2; cases hu2
      · subst htr
        subst ha
        exact ⟨by simp, ⟨_, rfl, rfl, rfl⟩, by simp [buildAgentModelsCalls],
          by simp [promptTemplateBuildCalls], by simp [providersGetCalls],
          by simp [buildToolsCalls]⟩
    · intro rc hrc
      exact agentTool_run_paths c ctx params call w0 session w1 ⟨a, model, pcfg, w, tr⟩
        hp hs hm hc hsel rc hrc
  · intro a rc hmem
    obtain ⟨session2, w12, sel, hc2, h2, ha, _, _⟩ :=
      agentTool_runCalls_mem c ctx params call w0 a rc hmem
    rw [hc] at hc2
    cases hc2
    refine ⟨sel.model, sel.providerCfg, sel.world, sel.trace, ?_⟩
    rw [ha]
    exact agentToolSelect_inr_resolved c ctx params w1 _ sel h2

/-- Witness of C9 on the in-memory coordinator.  Small tier with a failing run: the
four build calls are made once each and `Run` is called on the newly made agent,
whose failure is the outcome.  Large tier: the selected agent is the pre-built
one and `buildAgentModels` is not called. -/
theorem agentTool_tier_selection_witness :
    (memSmallAgent ≠ SessionAgent.largeAgent ∧
     buildAgentModelsCalls (agentTool (memCoordinator memProviders false) memCtx
        ⟨"do it", true⟩ memCall memWorld).trace = [true] ∧
     agentTool (memCoordinator memProviders false) memCtx ⟨"do it", true⟩ memCall memWorld
      = ⟨{ Type_ := "text", Content := "error generating response", IsError := true }, none,
          memWorld ++ [memChild],
          memSmallTrace ++ [Call.Run memSmallAgent memSmallRunCall]⟩) ∧
    buildAgentModelsCalls (agentTool (memCoordinator memProviders true) memCtx
        ⟨"do it", false⟩ memCall memWorld).trace = [] := by
  have h := (agentTool_tier_selection (memCoordinator memProviders false) memCtx
    ⟨"do it", true⟩ memCall memWorld memChild (memWorld ++ [memChild])
    (by decide) (by decide) (by decide) rfl).1
    memSmallAgent memSmallModel ⟨"openai", "You are small."⟩ (memWorld ++ [memChild])
    memSmallTrace
    (Or.inr ⟨rfl, memLargeModel, memWorld ++ [memChild], "task prompt for small-1",
      memWorld ++ [memChild], (), rfl, rfl, rfl, rfl, rfl, rfl⟩)
  have hl := (agentTool_tier_selection (memCoordinator memProviders true) memCtx
    ⟨"do it", false⟩ memCall memWorld memChild (memWorld ++ [memChild])
    (by decide) (by decide) (by decide) rfl).1
    SessionAgent.largeAgent memLargeModel ⟨"anthropic", "You are large."⟩
    (memWorld ++ [memChild]) memLargeSelected.trace
    (Or.inl ⟨rfl, rfl, rfl, rfl, rfl, rfl⟩)
  exact ⟨⟨(h.2.1 rfl).1, (h.2.1 rfl).2.2.1,
    (h.2.2 memSmallRunCall rfl).2.1 "run failed" (memWorld ++ [memChild]) rfl⟩,
    (hl.1 rfl).2.1⟩

/-- C2: when the handler returns successfully (nil error, a response that is not an
error response), the prompt and the context were valid, session creation, the tier
branch, `Run`, `Get` of the child, `Get` of the parent and `Save` all succeeded in
that order, and `Save` was called exactly once: on the parent session that
`Get(sessionID)` returned after the run and after the child was read, with its
`Cost` replaced by that cost plus the `Cost` of the child session read after the
run, and `ID` and every other field unchanged. -/
theorem agentTool_cost_rollup (c : Coordinator F Ctx W R O T) (ctx : Ctx)
    (params : AgentParams) (call : ToolCall) (w0 : W)
    (herr : (agentTool c ctx params call w0).err = none)
    (hsoft : (agentTool c ctx params call w0).resp.IsError = false) :
    ∃ session w1 sel result w2 child w3 parent w4 saved w5,
      params.Prompt ≠ "" ∧ c.GetSessionFromContext ctx ≠ "" ∧
      c.GetMessageFromContext ctx ≠ "" ∧
      c.CreateTaskSession ctx
        (c.CreateAgentToolSessionID (c.GetMessageFromContext ctx) call.ID)
        (c.GetSessionFromContext ctx) "New Agent Session" w0 = (.ok session, w1) ∧
      agentToolSelect c ctx params w1
        [Call.CreateAgentToolSessionID (c.GetMessageFromContext ctx) call.ID,
         Call.CreateTaskSession
           (c.CreateAgentToolSessionID (c.GetMessageFromContext ctx) call.ID)
           (c.GetSessionFromContext ctx) "New Agent Session"] = .inr sel ∧
      c.Run sel.selectedAgent ctx (runCall c params session sel.model sel.providerCfg)
        sel.world = (.ok result, w2) ∧
      c.Get ctx session.ID w2 = (.ok child, w3) ∧
      c.Get ctx (c.GetSessionFromContext ctx) w3 = (.ok parent, w4) ∧
      c.Save ctx { ID := parent.ID, Cost := parent.Cost + child.Cost, rest := parent.rest } w4
        = (.ok saved, w5) ∧
      saveCalls (agentTool c ctx params call w0).trace
        = [{ ID := parent.ID, Cost := parent.Cost + child.Cost, rest := parent.rest }] ∧
      getCalls (agentTool c ctx params call w0).trace
        = [session.ID, c.GetSessionFromContext ctx] ∧
      (agentTool c ctx params call w0).trace
        = sel.trace ++
          [Call.Run sel.selectedAgent (runCall c params session sel.model sel.providerCfg),
           Call.Get session.ID, Call.Get (c.GetSessionFromContext ctx),
           Call.Save { ID := parent.ID, Cost := parent.Cost + child.Cost,
                       rest := parent.rest }] ∧
      (agentTool c ctx params call w0).world = w5 ∧
      (agentTool c ctx params call w0).resp = NewTextResponse result.Text := by
  by_cases hp : params.Prompt = ""
  · simp [agentTool, hp, NewTextErrorResponse] at hsoft
  by_cases hs : c.GetSessionFromContext ctx = ""
  · simp [agentTool, hp, hs] at herr
  by_cases hm : c.GetMessageFromContext ctx = ""
  · simp [agentTool, hp, hs, hm] at herr
  rcases agentTool_valid_cases c ctx params call w0 hp hs hm with
    ⟨e, w1, _, h1⟩ | ⟨session, w1, out, _, h2, h1⟩ | ⟨session, w1, sel, hc, h2, h1⟩
  · simp [h1] at herr
  · rw [h1] at herr
    exact absurd herr (agentToolSelect_inl c ctx params w1 _ out h2).2.1
  · obtain ⟨_, _, hg, hsv⟩ := agentToolSelect_inr c ctx params w1 _ sel h2
    rcases agentToolRun_cases c ctx params (c.GetSessionFromContext ctx) session
        sel.selectedAgent sel.model sel.providerCfg sel.world sel.trace with
      ⟨_, _, _, h⟩ | ⟨_, _, _, _, _, _, h⟩ | ⟨_, _, _, _, _, _, _, _, _, h⟩ |
      ⟨_, _, _, _, _, _, _, _, _, _, _, _, h⟩ |
      ⟨result, w2, child, w3, parent, w4, saved, w5, hr, hg1, hg2, hs1, h⟩
    · simp [h1, h, NewTextErrorResponse] at hsoft
    · simp [h1, h] at herr
    · simp [h1, h] at herr
    · simp [h1, h] at herr
    · refine ⟨session, w1, sel, result, w2, child, w3, parent, w4, saved, w5, hp, hs, hm, hc,
        h2, hr, hg1, hg2, hs1, ?_, ?_, ?_, ?_, ?_⟩
      · rw [h1, h]
        have : saveCalls sel.trace = [] := by rw [hsv]; simp [saveCalls]
        simp [saveCalls, List.filterMap_append] at this ⊢
        exact this
      · rw [h1, h]
        have : getCalls sel.trace = [] := by rw [hg]; simp [getCalls]
        simp [getCalls, List.filterMap_append] at this ⊢
        exact this
      · rw [h1, h]
      · rw [h1, h]
      · rw [h1, h]

/-- Witness of C2 on the in-memory coordinator: the parent had cost 5, the run left
the child at cost 7, and the parent is saved with cost 12. -/
theorem agentTool_cost_rollup_witness :
    ∃ session w1 sel result w2 child w3 parent w4 saved w5,
      (⟨"do it", false⟩ : AgentParams).Prompt ≠ "" ∧
      (memCoordinator memProviders true).GetSessionFromContext memCtx ≠ "" ∧
      (memCoordinator memProviders true).GetMessageFromContext memCtx ≠ "" ∧
      (memCoordinator memProviders true).CreateTaskSession memCtx
        ((memCoordinator memProviders true).CreateAgentToolSessionID
          ((memCoordinator memProviders true).GetMessageFromContext memCtx) memCall.ID)
        ((memCoordinator memProviders true).GetSessionFromContext memCtx)
        "New Agent Session" memWorld = (.ok session, w1) ∧
      agentToolSelect (memCoordinator memProviders true) memCtx ⟨"do it", false⟩ w1
        [Call.CreateAgentToolSessionID
           ((memCoordinator memProviders true).GetMessageFromContext memCtx) memCall.ID,
         Call.CreateTaskSession
           ((memCoordinator memProviders true).CreateAgentToolSessionID
             ((memCoordinator memProviders true).GetMessageFromContext memCtx) memCall.ID)
           ((memCoordinator memProviders true).GetSessionFromContext memCtx)
           "New Agent Session"] = .inr sel ∧
      (memCoordinator memProviders true).Run sel.selectedAgent memCtx
        (runCall (memCoordinator memProviders true) ⟨"do it", false⟩ session sel.model
          sel.providerCfg) sel.world = (.ok result, w2) ∧
      (memCoordinator memProviders true).Get memCtx session.ID w2 = (.ok child, w3) ∧
      (memCoordinator memProviders true).Get memCtx
        ((memCoordinator memProviders true).GetSessionFromContext memCtx) w3
        = (.ok parent, w4) ∧
      (memCoordinator memProviders true).Save memCtx
        { ID := parent.ID, Cost := parent.Cost + child.Cost, rest := parent.rest } w4
        = (.ok saved, w5) ∧
      saveCalls (agentTool (memCoordinator memProviders true) memCtx ⟨"do it", false⟩ memCall
          memWorld).trace
        = [{ ID := parent.ID, Cost := parent.Cost + child.Cost, rest := parent.rest }] ∧
      getCalls (agentTool (memCoordinator memProviders true) memCtx ⟨"do it", false⟩ memCall
          memWorld).trace
        = [session.ID, (memCoordinator memProviders true).GetSessionFromContext memCtx] ∧
      (agentTool (memCoordinator memProviders true) memCtx ⟨"do it", false⟩ memCall
          memWorld).trace
        = sel.trace ++
          [Call.Run sel.selectedAgent
             (runCall (memCoordinator memProviders true) ⟨"do it", false⟩ session sel.model
               sel.providerCfg),
           Call.Get session.ID,
           Call.Get ((memCoordinator memProviders true).GetSessionFromContext memCtx),
           Call.Save { ID := parent.ID, Cost := parent.Cost + child.Cost,
                       rest := parent.rest }] ∧
      (agentTool (memCoordinator memProviders true) memCtx ⟨"do it", false⟩ memCall
          memWorld).world = w5 ∧
      (agentTool (memCoordinator memProviders true) memCtx ⟨"do it", false⟩ memCall
          memWorld).resp = NewTextResponse result.Text :=
  agentTool_cost_rollup (memCoordinator memProviders true) memCtx ⟨"do it", false⟩ memCall
    memWorld (by decide) (by decide)

/-- C3: with a non-empty prompt and a valid context, when session creation succeeds
and the tier branch falls through but `Run` returns an error, the handler returns
the soft text error response "error generating response" with a nil error; the
invocation called `CreateTaskSession` once and nothing undoes it, `Run` is its last
call, and it calls neither `Get` nor `Save`, so the world is as `Run` left it. -/
theorem agentTool_run_failure (c : Coordinator F Ctx W R O T) (ctx : Ctx)
    (params : AgentParams) (call : ToolCall) (w0 : W) (session : Session F R) (w1 : W)
    (sel : Selected F W R O T) (e : String) (w2 : W)
    (hp : params.Prompt ≠ "") (hs : c.GetSessionFromContext ctx ≠ "")
    (hm : c.GetMessageFromContext ctx ≠ "")
    (hc : c.CreateTaskSession ctx
        (c.CreateAgentToolSessionID (c.GetMessageFromContext ctx) call.ID)
        (c.GetSessionFromContext ctx) "New Agent Session" w0 = (.ok session, w1))
    (hsel : agentToolSelect c ctx params w1
        [Call.CreateAgentToolSessionID (c.GetMessageFromContext ctx) call.ID,
         Call.CreateTaskSession
           (c.CreateAgentToolSessionID (c.GetMessageFromContext ctx) call.ID)
           (c.GetSessionFromContext ctx) "New Agent Session"] = .inr sel)
    (hrun : c.Run sel.selectedAgent ctx (runCall c params session sel.model sel.providerCfg)
        sel.world = (.error e, w2)) :
    agentTool c ctx params call w0
      = ⟨{ Type_ := "text", Content := "error generating response", IsError := true }, none,
          w2, sel.trace ++
            [Call.Run sel.selectedAgent (runCall c params session sel.model sel.providerCfg)]⟩ ∧
    createTaskSessionCalls (agentTool c ctx params call w0).trace
      = [(c.CreateAgentToolSessionID (c.GetMessageFromContext ctx) call.ID,
          c.GetSessionFromContext ctx, "New Agent Session")] ∧
    getCalls (agentTool c ctx params call w0).trace = [] ∧
    saveCalls (agentTool c ctx params call w0).trace = [] := by
  have hout : agentTool c ctx params call w0
      = ⟨{ Type_ := "text", Content := "error generating response", IsError := true }, none,
          w2, sel.trace ++
            [Call.Run sel.selectedAgent
              (runCall c params session sel.model sel.providerCfg)]⟩ := by
    simp [agentTool, hp, hs, hm, hc, hsel, agentToolRun, hrun, NewTextErrorResponse]
  obtain ⟨_, _, hg, hsv⟩ := agentToolSelect_inr c ctx params w1 _ sel hsel
  refine ⟨hout, agentTool_createTaskSessionCalls c ctx params call w0 hp hs hm, ?_, ?_⟩
  · have : getCalls sel.trace = [] := by rw [hg]; simp [getCalls]
    rw [hout]
    simp [getCalls, List.filterMap_append] at this ⊢
    exact this
  · have : saveCalls sel.trace = [] := by rw [hsv]; simp [saveCalls]
    rw [hout]
    simp [saveCalls, List.filterMap_append] at this ⊢
    exact this

/-- Witness of C3 on the in-memory coordinator whose run fails: the child session
stays in the world and the parent keeps cost 5. -/
theorem agentTool_run_failure_witness :
    (agentTool (memCoordinator memProviders false) memCtx ⟨"do it", false⟩ memCall
        memWorld).world = [⟨"parent", 5, ()⟩, ⟨"msg1$$call1", 0, ()⟩] ∧
    (agentTool (memCoordinator memProviders false) memCtx ⟨"do it", false⟩ memCall
        memWorld).resp.Content = "error generating response" ∧
    saveCalls (agentTool (memCoordinator memProviders false) memCtx ⟨"do it", false⟩ memCall
        memWorld).trace = [] := by
  have h := agentTool_run_failure (memCoordinator memProviders false) memCtx
    ⟨"do it", false⟩ memCall memWorld memChild (memWorld ++ [memChild]) memLargeSelected
    "run failed" (memWorld ++ [memChild]) (by decide) (by decide) (by decide) rfl rfl rfl
  exact ⟨by rw [h.1]; rfl, by rw [h.1], h.2.2.2⟩

/-- C4, counterexample: on the in-memory coordinator with no provider configured, a
small-tier invocation with a valid prompt and context fails with the hard error
"small model provider not configured", yet `CreateTaskSession` was called and
the registry holds the new child session: the world is not as it was before. -/
theorem small_tier_orphans_session_counterexample :
    (agentTool (memCoordinator [] true) memCtx ⟨"do it", true⟩ memCall memWorld).err
      = some "small model provider not configured" ∧
    createTaskSessionCalls
        (agentTool (memCoordinator [] true) memCtx ⟨"do it", true⟩ memCall memWorld).trace
      = [("msg1$$call1", "parent", "New Agent Session")] ∧
    (agentTool (memCoordinator [] true) memCtx ⟨"do it", true⟩ memCall memWorld).world
      = [⟨"parent", 5, ()⟩, ⟨"msg1$$call1", 0, ()⟩] ∧
    (agentTool (memCoordinator [] true) memCtx ⟨"do it", true⟩ memCall memWorld).world
      ≠ memWorld := by
  decide

/-- C4, amended: with a non-empty prompt, a valid context and `UseSmallModel = true`,
when the provider of whatever small model `buildAgentModels` resolves is not
configured, the handler fails with a hard error (non-nil error, empty response);
by then it has called `CreateTaskSession` exactly once (the child session is
requested before the tier is resolved, and nothing undoes it), and it calls
neither `Run`, `Get` nor `Save`: no session is saved and no cost is updated. -/
theorem agentTool_small_provider_missing (c : Coordinator F Ctx W R O T) (ctx : Ctx)
    (params : AgentParams) (call : ToolCall) (w0 : W)
    (hp : params.Prompt ≠ "") (hs : c.GetSessionFromContext ctx ≠ "")
    (hm : c.GetMessageFromContext ctx ≠ "") (hu : params.UseSmallModel = true)
    (hprov : ∀ w large small w2, c.buildAgentModels ctx true w = (.ok (large, small), w2) →
      ∀ w3, c.ProvidersGet small.ModelCfg.Provider w3 = none) :
    (agentTool c ctx params call w0).err ≠ none ∧
    (agentTool c ctx params call w0).resp = {} ∧
    createTaskSessionCalls (agentTool c ctx params call w0).trace
      = [(c.CreateAgentToolSessionID (c.GetMessageFromContext ctx) call.ID,
          c.GetSessionFromContext ctx, "New Agent Session")] ∧
    runCalls (agentTool c ctx params call w0).trace = [] ∧
    getCalls (agentTool c ctx params call w0).trace = [] ∧
    saveCalls (agentTool c ctx params call w0).trace = [] := by
  rcases agentTool_valid_cases c ctx params call w0 hp hs hm with
    ⟨e, w1, _, h1⟩ | ⟨session, w1, out, _, h2, h1⟩ | ⟨session, w1, sel, hc, h2, h1⟩
  · simp [h1, createTaskSessionCalls, runCalls, getCalls, saveCalls]
  · obtain ⟨hresp, herr, hcr, hr, hg, hsv⟩ := agentToolSelect_inl c ctx params w1 _ out h2
    rw [h1, hcr, hr, hg, hsv]
    exact ⟨herr, hresp, by simp [createTaskSessionCalls], by simp [runCalls],
      by simp [getCalls], by simp [saveCalls]⟩
  · exfalso
    rcases agentToolSelect_cases c ctx params w1
        [Call.CreateAgentToolSessionID (c.GetMessageFromContext ctx) call.ID,
         Call.CreateTaskSession
           (c.CreateAgentToolSessionID (c.GetMessageFromContext ctx) call.ID)
           (c.GetSessionFromContext ctx) "New Agent Session"] with
        ⟨_, _, h3⟩ | ⟨hf, _⟩ | ⟨_, _, _, _, h3⟩ | ⟨_, _, _, _, _, _, _, _, h3⟩ |
        ⟨_, _, _, _, _, _, _, _, _, h3⟩ | ⟨_, _, _, _, _, _, _, _, _, _, _, _, _, h3⟩ |
        ⟨_, large, small, w2, _, w3, _, _, _, hb, _, hg, _⟩
    · rw [h3] at h2; cases h2
    · rw [hu] at hf; cases hf
    · rw [h3] at h2; cases h2
    · rw [h3] at h2; cases h2
    · rw [h3] at h2; cases h2
    · rw [h3] at h2; cases h2
    · rw [hprov w1 large small w2 hb w3] at hg; cases hg

/-- Witness of the amended C4 on the in-memory coordinator with no provider. -/
theorem agentTool_small_provider_missing_witness :
    (agentTool (memCoordinator [] true) memCtx ⟨"do it", true⟩ memCall memWorld).err ≠ none ∧
    saveCalls (agentTool (memCoordinator [] true) memCtx ⟨"do it", true⟩ memCall
      memWorld).trace = [] := by
  have h := agentTool_small_provider_missing (memCoordinator [] true) memCtx
    ⟨"do it", true⟩ memCall memWorld (by decide) (by decide) (by decide) rfl
    (by intro w large small w2 _ w3; rfl)
  exact ⟨h.1, h.2.2.2.2.2⟩

/-- C5: once the session is created, in either tier, when `Providers.Get` for the
selected model's provider id reports `ok = false` the handler returns a non-nil
error ("model provider not configured" for the large tier, "small model provider
not configured" for the small tier) with the empty tool response; the lookup is
its last call and `Run` is never called. -/
theorem agentTool_provider_missing (c : Coordinator F Ctx W R O T) (ctx : Ctx)
    (params : AgentParams) (call : ToolCall) (w0 : W) (session : Session F R) (w1 : W)
    (hp : params.Prompt ≠ "") (hs : c.GetSessionFromContext ctx ≠ "")
    (hm : c.GetMessageFromContext ctx ≠ "")
    (hc : c.CreateTaskSession ctx
        (c.CreateAgentToolSessionID (c.GetMessageFromContext ctx) call.ID)
        (c.GetSessionFromContext ctx) "New Agent Session" w0 = (.ok session, w1)) :
    (params.UseSmallModel = false →
      c.ProvidersGet (c.largeAgentModel w1).ModelCfg.Provider w1 = none →
      agentTool c ctx params call w0
        = ⟨{}, some "model provider not configured", w1,
            [Call.CreateAgentToolSessionID (c.GetMessageFromContext ctx) call.ID,
             Call.CreateTaskSession
               (c.CreateAgentToolSessionID (c.GetMessageFromContext ctx) call.ID)
               (c.GetSessionFromContext ctx) "New Agent Session",
             Call.Model, Call.ProvidersGet (c.largeAgentModel w1).ModelCfg.Provider]⟩ ∧
      runCalls (agentTool c ctx params call w0).trace = []) ∧
    (params.UseSmallModel = true →
      ∀ large small w2 systemPrompt w3,
      c.buildAgentModels ctx true w1 = (.ok (large, small), w2) →
      c.promptTemplateBuild ctx small.Model.Provider small.Model.Model w2
        = (.ok systemPrompt, w3) →
      c.ProvidersGet small.ModelCfg.Provider w3 = none →
      agentTool c ctx params call w0
        = ⟨{}, some "small model provider not configured", w3,
            [Call.CreateAgentToolSessionID (c.GetMessageFromContext ctx) call.ID,
             Call.CreateTaskSession
               (c.CreateAgentToolSessionID (c.GetMessageFromContext ctx) call.ID)
               (c.GetSessionFromContext ctx) "New Agent Session",
             Call.buildAgentModels true,
             Call.promptTemplateBuild small.Model.Provider small.Model.Model,
             Call.ProvidersGet small.ModelCfg.Provider]⟩ ∧
      runCalls (agentTool c ctx params call w0).trace = []) := by
  constructor
  · intro hu hg
    have hout : agentTool c ctx params call w0
        = ⟨{}, some "model provider not configured", w1,
            [Call.CreateAgentToolSessionID (c.GetMessageFromContext ctx) call.ID,
             Call.CreateTaskSession
               (c.CreateAgentToolSessionID (c.GetMessageFromContext ctx) call.ID)
               (c.GetSessionFromContext ctx) "New Agent Session",
             Call.Model, Call.ProvidersGet (c.largeAgentModel w1).ModelCfg.Provider]⟩ := by
      simp [agentTool, hp, hs, hm, hc, agentToolSelect, hu, hg]
    exact ⟨hout, by rw [hout]; simp [runCalls]⟩
  · intro hu large small w2 systemPrompt w3 hb hpb hg
    have hout : agentTool c ctx params call w0
        = ⟨{}, some "small model provider not configured", w3,
            [Call.CreateAgentToolSessionID (c.GetMessageFromContext ctx) call.ID,
             Call.CreateTaskSession
               (c.CreateAgentToolSessionID (c.GetMessageFromContext ctx) call.ID)
               (c.GetSessionFromContext ctx) "New Agent Session",
             Call.buildAgentModels true,
             Call.promptTemplateBuild small.Model.Provider small.Model.Model,
             Call.ProvidersGet small.ModelCfg.Provider]⟩ := by
      simp [agentTool, hp, hs, hm, hc, agentToolSelect, hu, hb, hpb, hg]
    exact ⟨hout, by rw [hout]; simp [runCalls]⟩

/-- Witness of C5 on the in-memory coordinator: the large tier with only the small
provider configured, and the small tier with only the large provider configured. -/
theorem agentTool_provider_missing_witness :
    (agentTool (memCoordinator [⟨"openai", "You are small."⟩] true) memCtx ⟨"do it", false⟩
        memCall memWorld).err = some "model provider not configured" ∧
    (agentTool (memCoordinator [⟨"anthropic", "You are large."⟩] true) memCtx ⟨"do it", true⟩
        memCall memWorld).err = some "small model provider not configured" := by
  have h1 := (agentTool_provider_missing (memCoordinator [⟨"openai", "You are small."⟩] true)
    memCtx ⟨"do it", false⟩ memCall memWorld memChild (memWorld ++ [memChild])
    (by decide) (by decide) (by decide) rfl).1 rfl rfl
  have h2 := (agentTool_provider_missing
    (memCoordinator [⟨"anthropic", "You are large."⟩] true)
    memCtx ⟨"do it", true⟩ memCall memWorld memChild (memWorld ++ [memChild])
    (by decide) (by decide) (by decide) rfl).2 rfl memLargeModel memSmallModel
    (memWorld ++ [memChild]) "task prompt for small-1" (memWorld ++ [memChild]) rfl rfl rfl
  exact ⟨by rw [h1.1], by rw [h2.1]⟩

end Claims

end Crush
